import Mathlib

/-!
Verification development for the decision-tracker repository.

The TypeScript core (task tracker state machine, persistence replay,
reflection store, morning briefing, and the deterministic decision
suggestion engine) is shallowly embedded below.  JavaScript strings are
modelled as explicit lists of characters (`Str`), JavaScript `Map`
insertion-order state as a list of tasks plus a counter, thrown errors as
`Except` values, and wall-clock time / random UUIDs as explicit
parameters.  All definitions follow the TypeScript sources; file and
network I/O is abstracted into explicit state values.
-/

namespace DecisionTracker

/-- Strings from the TypeScript source, modelled as explicit character
lists so that prefix/lowercase reasoning is structural. -/
abbrev Str := List Char

/-- `String.prototype.toLowerCase`, restricted to the ASCII range (all
string comparisons the proofs depend on only involve ASCII characters). -/
def lowerStr (s : Str) : Str := s.map Char.toLower

/-- The JavaScript regex class `\s`, restricted to ASCII whitespace. -/
def isWs (c : Char) : Bool :=
  c = ' ' || c = '\t' || c = '\n' || c = '\r' || c = '\x0b' || c = '\x0c'

/-- `String.prototype.trim` (ASCII whitespace). -/
def strTrim (s : Str) : Str :=
  ((s.dropWhile isWs).reverse.dropWhile isWs).reverse

/-! ## Task model and state machine (src/task-tracker.ts) -/

inductive TaskStatus
  | todo
  | inProgress
  | done
deriving DecidableEq, Repr

inductive TaskKind
  | goal
  | action
deriving DecidableEq, Repr

structure Task where
  id : Nat
  title : Str
  status : TaskStatus
  outcome : Option Str := none
  metric : Option Str := none
  horizon : Option Str := none
  parentId : Option Nat := none
  kind : Option TaskKind := none
deriving DecidableEq, Repr

structure TaskPatch where
  outcome : Option Str := none
  metric : Option Str := none
  horizon : Option Str := none
deriving DecidableEq, Repr

/-- Structured counterpart of the `NotFoundError` / `InvalidTransitionError`
exception classes (the thrown message strings are built from exactly these
data). -/
inductive TrackerError
  | notFound (id : Nat)
  | invalidTransition (id : Nat) (current expected : TaskStatus)
deriving DecidableEq, Repr

/-- The `TaskTracker` private state: a JavaScript `Map` in insertion order
(ids are assigned from the monotone counter, so insertion order is
ascending id order) plus the `nextId` counter. -/
structure TaskTracker where
  tasks : List Task := []
  nextId : Nat := 1
deriving DecidableEq, Repr

/-- JavaScript truthiness of an optional numeric field (`undefined` and `0`
are falsy). -/
def truthyNat (o : Option Nat) : Bool := o.getD 0 ≠ 0

/-- JavaScript truthiness of an optional string field (`undefined` and the
empty string are falsy). -/
def truthyStr (o : Option Str) : Bool := !(o.getD []).isEmpty

structure AddOpts where
  parentId : Option Nat := none
  kind : Option TaskKind := none
deriving DecidableEq, Repr

/-- `TaskTracker.addTask(title, opts?)`. -/
def TaskTracker.addTask (tr : TaskTracker) (title : Str) (opts : AddOpts) :
    Task × TaskTracker :=
  let kind := opts.kind.getD (if truthyNat opts.parentId then .action else .goal)
  let task : Task :=
    { id := tr.nextId, title := title, status := .todo, kind := some kind,
      parentId := if truthyNat opts.parentId then opts.parentId else none }
  (task, { tasks := tr.tasks ++ [task], nextId := tr.nextId + 1 })

def applyPatch (t : Task) (p : TaskPatch) : Task :=
  let t1 := match p.outcome with | some v => { t with outcome := some v } | none => t
  let t2 := match p.metric with | some v => { t1 with metric := some v } | none => t1
  match p.horizon with | some v => { t2 with horizon := some v } | none => t2

/-- `TaskTracker.updateTask(id, patch)`. -/
def TaskTracker.updateTask (tr : TaskTracker) (id : Nat) (p : TaskPatch) :
    Except TrackerError (Task × TaskTracker) :=
  match tr.tasks.find? (fun t => t.id == id) with
  | none => .error (.notFound id)
  | some t =>
    .ok (applyPatch t p,
      { tr with tasks := tr.tasks.map (fun u => if u.id == id then applyPatch u p else u) })

/-- In-place status mutation of the map entry with the given id. -/
def TaskTracker.setStatusOf (tr : TaskTracker) (id : Nat) (st : TaskStatus) : TaskTracker :=
  { tr with tasks := tr.tasks.map (fun u => if u.id == id then { u with status := st } else u) }

/-- `TaskTracker.transition(id, fromStatus, toStatus)` (private). -/
def TaskTracker.transition (tr : TaskTracker) (id : Nat)
    (fromStatus toStatus : TaskStatus) : Except TrackerError (Task × TaskTracker) :=
  match tr.tasks.find? (fun t => t.id == id) with
  | none => .error (.notFound id)
  | some task =>
    if task.status ≠ fromStatus then
      .error (.invalidTransition id task.status fromStatus)
    else
      .ok ({ task with status := toStatus }, tr.setStatusOf id toStatus)

/-- `TaskTracker.startTask(id)`: transition `todo → in-progress`, then
promote a `todo` parent to `in-progress`. -/
def TaskTracker.startTask (tr : TaskTracker) (id : Nat) :
    Except TrackerError (Task × TaskTracker) :=
  match tr.transition id .todo .inProgress with
  | .error e => .error e
  | .ok (task, tr1) =>
    if truthyNat task.parentId then
      match tr1.tasks.find? (fun t => t.id == task.parentId.getD 0) with
      | some parent =>
        if parent.status = .todo then
          .ok (task, tr1.setStatusOf (task.parentId.getD 0) .inProgress)
        else .ok (task, tr1)
      | none => .ok (task, tr1)
    else .ok (task, tr1)

/-- `TaskTracker.completeTask(id)`: transition `in-progress → done`, then
cascade the parent status from the sibling statuses. -/
def TaskTracker.completeTask (tr : TaskTracker) (id : Nat) :
    Except TrackerError (Task × TaskTracker) :=
  match tr.transition id .inProgress .done with
  | .error e => .error e
  | .ok (task, tr1) =>
    if truthyNat task.parentId then
      match tr1.tasks.find? (fun t => t.id == task.parentId.getD 0) with
      | some parent =>
        let siblings := tr1.tasks.filter (fun t => t.parentId == task.parentId)
        let allDone := !siblings.isEmpty && siblings.all (fun s => s.status == .done)
        if allDone then
          if parent.status = .inProgress then
            .ok (task, tr1.setStatusOf (task.parentId.getD 0) .done)
          else .ok (task, tr1)
        else
          if parent.status = .todo then
            .ok (task, tr1.setStatusOf (task.parentId.getD 0) .inProgress)
          else .ok (task, tr1)
      | none => .ok (task, tr1)
    else .ok (task, tr1)

/-- `TaskTracker.listTasks()` (defensive copies are identities here). -/
def TaskTracker.listTasks (tr : TaskTracker) : List Task := tr.tasks

/-! ## Result/error boundary (src/result.ts, src/safe-task-tracker.ts) -/

inductive ErrorCode
  | NOT_FOUND
  | INVALID_TRANSITION
deriving DecidableEq, Repr

inductive TResult (α : Type)
  | ok (value : α)
  | err (code : ErrorCode)
deriving DecidableEq, Repr

/-- The `attempt` catch-and-translate mapping from domain exceptions to
boundary error codes. -/
def toCode : TrackerError → ErrorCode
  | .notFound _ => .NOT_FOUND
  | .invalidTransition .. => .INVALID_TRANSITION

/-- `SafeTaskTracker.addTask(title)` — note: the boundary facade passes no
parent/kind options to the domain `addTask`. -/
def safeAddTask (tr : TaskTracker) (title : Str) : TResult Task × TaskTracker :=
  let r := tr.addTask title {}
  (.ok r.1, r.2)

def safeUpdateTask (tr : TaskTracker) (id : Nat) (p : TaskPatch) :
    TResult Task × TaskTracker :=
  match tr.updateTask id p with
  | .ok (t, tr2) => (.ok t, tr2)
  | .error e => (.err (toCode e), tr)

def safeStartTask (tr : TaskTracker) (id : Nat) : TResult Task × TaskTracker :=
  match tr.startTask id with
  | .ok (t, tr2) => (.ok t, tr2)
  | .error e => (.err (toCode e), tr)

def safeCompleteTask (tr : TaskTracker) (id : Nat) : TResult Task × TaskTracker :=
  match tr.completeTask id with
  | .ok (t, tr2) => (.ok t, tr2)
  | .error e => (.err (toCode e), tr)

def safeListTasks (tr : TaskTracker) : TResult (List Task) := .ok tr.tasks

/-! ## Persistence adapter (src/store.ts)

`saveTracker` serializes `listTasks()`; `loadTracker` replays the saved
array through the boundary facade in id order.  The JSON (de)serialization
is modelled as the identity on the task list. -/

/-- `saveTracker`: the snapshot written to disk. -/
def saveTracker (tr : TaskTracker) : List Task := tr.listTasks

/-- One iteration of the `loadTracker` replay loop. -/
def loadStep (tr : TaskTracker) (task : Task) : TaskTracker :=
  let tr1 := (safeAddTask tr task.title).2
  let tr2 :=
    if task.status = .inProgress || task.status = .done then (safeStartTask tr1 task.id).2
    else tr1
  let tr3 := if task.status = .done then (safeCompleteTask tr2 task.id).2 else tr2
  let patch : TaskPatch :=
    { outcome := if truthyStr task.outcome then task.outcome else none,
      metric := if truthyStr task.metric then task.metric else none,
      horizon := if truthyStr task.horizon then task.horizon else none }
  if patch.outcome.isSome || patch.metric.isSome || patch.horizon.isSome then
    (safeUpdateTask tr3 task.id patch).2
  else tr3

/-- `loadTracker`: rebuild a tracker from a parsed snapshot. -/
def loadTracker (snapshot : List Task) : TaskTracker :=
  snapshot.foldl loadStep {}

/-! ## Reflection store (api/src/reflections-store.ts)

The JSON file is modelled as an explicit list of reflections threaded
through the operations; `randomUUID()` and `new Date()` are explicit
parameters.  Timestamps are integer epoch milliseconds (the ISO string
round-trip is order-preserving), and the 14-day window is modelled with a
fixed 86 400 000 ms day. -/

structure ReflectionAnswer where
  promptId : Str
  value : Str
deriving DecidableEq, Repr

structure Reflection where
  id : Str
  createdAt : Int
  goalId : Int
  actionId : Option Int := none
  signals : Option (List Str) := none
  note : Option Str := none
  answers : Option (List ReflectionAnswer) := none
deriving DecidableEq, Repr

structure ReflectionInput where
  goalId : Int
  actionId : Option Int := none
  signals : Option (List Str) := none
  note : Option Str := none
  answers : Option (List ReflectionAnswer) := none
deriving DecidableEq, Repr

def VALID_SIGNALS : List Str :=
  ["clear_step".data, "enough_time".data, "context_switching".data,
   "low_energy".data, "unclear_action".data]

inductive RResult
  | rok (value : Reflection)
  | rerr (message : Str)
deriving DecidableEq, Repr

/-- `appendReflection(input)`, with the store, uuid and current time made
explicit. -/
def appendReflection (input : ReflectionInput) (uuid : Str) (now : Int)
    (store : List Reflection) : RResult × List Reflection :=
  if input.goalId ≤ 0 then (.rerr "Invalid goalId".data, store)
  else if (match input.actionId with | some a => decide (a ≤ 0) | none => false) then
    (.rerr "Invalid actionId".data, store)
  else
    let hasSignals := match input.signals with | some l => !l.isEmpty | none => false
    let hasNote := match input.note with | some n => !n.isEmpty && !(strTrim n).isEmpty | none => false
    let hasAnswers := match input.answers with | some l => !l.isEmpty | none => false
    if !hasSignals && !hasNote && !hasAnswers then
      (.rerr "Reflection must have signals, note, or answers".data, store)
    else
      match (match input.signals with
             | some l => l.find? (fun (s : Str) => !(VALID_SIGNALS.contains s))
             | none => none) with
      | some s => (.rerr ("Invalid signal: ".data ++ s), store)
      | none =>
        if (match input.note with | some n => decide (140 < n.length) | none => false) then
          (.rerr "note must be <= 140 characters".data, store)
        else
          match (match input.answers with
                 | some l => l.find? (fun (a : ReflectionAnswer) => a.promptId.isEmpty || a.value.isEmpty)
                 | none => none) with
          | some _ => (.rerr "Each answer must have promptId and value".data, store)
          | none =>
            let refl : Reflection :=
              { id := uuid, createdAt := now, goalId := input.goalId,
                actionId := input.actionId,
                signals :=
                  match input.signals with
                  | none => none
                  | some l =>
                    let f := l.filter (fun s => !s.isEmpty)
                    if f.isEmpty then none else some f,
                note :=
                  match input.note with
                  | none => none
                  | some n =>
                    let t := strTrim n
                    if t.isEmpty then none else some t,
                answers := input.answers }
            (.rok refl, store ++ [refl])

structure ListReflectionParams where
  goalId : Option Int := none
  actionId : Option Int := none
  sinceDays : Option Int := none
deriving DecidableEq, Repr

def msPerDay : Int := 86400000

/-- `listReflections(params)`. -/
def listReflections (store : List Reflection) (params : ListReflectionParams)
    (now : Int) : List Reflection :=
  let sinceDays := params.sinceDays.getD 14
  let cutoff := now - sinceDays * msPerDay
  let l1 := store.filter (fun r => decide (cutoff ≤ r.createdAt))
  let l2 := match params.goalId with
            | some g => l1.filter (fun r => r.goalId == g)
            | none => l1
  match params.actionId with
  | some a => l2.filter (fun r => r.actionId == some a)
  | none => l2

/-! ## Morning briefing, deterministic path (api/src/morning-briefing.ts) -/

/-- The briefing module declares its own task input shape with a plain
string `status`. -/
structure BTask where
  id : Nat
  title : Str
  status : Str
  parentId : Option Nat := none
  kind : Option Str := none
  outcome : Option Str := none
  metric : Option Str := none
  horizon : Option Str := none
deriving DecidableEq, Repr

inductive BriefingActionType
  | startExistingAction
  | finishExistingAction
  | createNewAction
deriving DecidableEq, Repr

structure BriefingAction where
  type : BriefingActionType
  actionId : Option Nat := none
  actionTitle : Str
deriving DecidableEq, Repr

structure BriefingFocusItem where
  goalId : Nat
  goalTitle : Str
  whyNow : Str
  action : BriefingAction
deriving DecidableEq, Repr

structure BriefingCta where
  label : Str
  microcopy : Str
deriving DecidableEq, Repr

structure MorningBriefing where
  greeting : Str
  headline : Str
  focus : List BriefingFocusItem
  cta : BriefingCta
deriving DecidableEq, Repr

/-- `clarityScore(t)`: 25 points per JavaScript-truthy field among title,
outcome, metric, horizon. -/
def clarityScore (t : BTask) : Nat :=
  (if !t.title.isEmpty then 25 else 0) + (if truthyStr t.outcome then 25 else 0) +
    (if truthyStr t.metric then 25 else 0) + (if truthyStr t.horizon then 25 else 0)

/-- The comparator passed to `Array.prototype.sort` in
`generateBriefingDeterministic` (in-progress first, then descending
clarity). -/
def briefCmp (a b : BTask) : Int :=
  if a.status = "in-progress".data ∧ b.status ≠ "in-progress".data then -1
  else if b.status = "in-progress".data ∧ a.status ≠ "in-progress".data then 1
  else (clarityScore b : Int) - (clarityScore a : Int)

/-- `Array.prototype.sort` is stable; it is modelled by the stable
`List.mergeSort` under the comparator's induced total preorder. -/
def briefSort (l : List BTask) : List BTask :=
  l.mergeSort (fun a b => decide (briefCmp a b ≤ 0))

def natStr (n : Nat) : Str := (toString n).data

/-- `generateBriefingDeterministic(goals, allTasks, userName?)`. -/
def generateBriefingDeterministic (goals allTasks : List BTask)
    (userName : Option Str) : MorningBriefing :=
  let active :=
    (briefSort (goals.filter
      (fun g => g.status == "in-progress".data || g.status == "todo".data))).take 2
  let focus : List BriefingFocusItem := active.map (fun g =>
    let actions := allTasks.filter (fun t => t.parentId == some g.id)
    match actions.find? (fun a => a.status == "in-progress".data) with
    | some a =>
      { goalId := g.id, goalTitle := g.title,
        whyNow := "This action is already in progress — finishing it moves the goal forward.".data,
        action := { type := .finishExistingAction, actionId := some a.id,
                    actionTitle := a.title } }
    | none =>
      match actions.find? (fun a => a.status == "todo".data) with
      | some a =>
        { goalId := g.id, goalTitle := g.title,
          whyNow :=
            if g.status == "in-progress".data then
              "This goal is active but needs its next action started.".data
            else "Starting this action gets the goal moving.".data,
          action := { type := .startExistingAction, actionId := some a.id,
                      actionTitle := a.title } }
      | none =>
        { goalId := g.id, goalTitle := g.title,
          whyNow := "This goal has no actions yet — defining one makes it concrete.".data,
          action := { type := .createNewAction, actionId := none,
                      actionTitle := "Define next step for \"".data ++ g.title ++ "\"".data } })
  { greeting :=
      match userName with
      | some n => "Good morning, ".data ++ n ++ ".".data
      | none => "Good morning.".data,
    headline :=
      if 0 < focus.length then
        "You have ".data ++ natStr focus.length ++ " goal".data ++
          (if 1 < focus.length then "s".data else []) ++
          " that could use attention today.".data
      else "No active goals right now.".data,
    focus := focus,
    cta := { label := "Start your day".data, microcopy := "Pick one and make progress.".data } }

/-! ## Decision suggestion engine, deterministic path
(api/src/decision-suggestions.ts, later revision — the one the spec
declares canonical: 2 non-validation + guaranteed validation + optional
4th reuse slot). -/

structure DecisionInput where
  id : Int
  title : Str
  status : Option Str := none
  outcome : Option Str := none
  metric : Option Str := none
  horizon : Option Str := none
deriving DecidableEq, Repr

inductive SuggestionKind
  | nextAction
  | split
  | review
  | followUp
  | cleanup
  | outcome
  | metric
  | horizon
  | execution
  | reuse
  | validation
deriving DecidableEq, Repr

structure Suggestion where
  title : Str
  rationale : Str
  kind : SuggestionKind
  outcome : Option Str := none
  metric : Option Str := none
  horizon : Option Str := none
deriving DecidableEq, Repr

/-- `replace(/\s+/g, " ")`: collapse each maximal whitespace run to one
space.  The Boolean argument tracks whether the previous character was
whitespace. -/
def collapseWsAux : Bool → Str → Str
  | _, [] => []
  | prevWs, c :: rest =>
    if isWs c then
      if prevWs then collapseWsAux true rest else ' ' :: collapseWsAux true rest
    else c :: collapseWsAux false rest

def collapseWs (s : Str) : Str := collapseWsAux false s

/-- `replace(/^action:\s*/i, "")` applied to an already-lowercased string. -/
def stripActionColon (s : Str) : Str :=
  if "action:".data.isPrefixOf s then (s.drop 7).dropWhile isWs else s

/-- `normalize(s)`: lowercase, strip a leading `action:`, collapse
whitespace, trim. -/
def normalize (s : Str) : Str :=
  strTrim (collapseWs (stripActionColon (lowerStr s)))

/-- Insertion-order deduplication, modelling `new Set(...)`. -/
def dedupKeepFirst (l : List Str) : List Str :=
  l.foldl (fun acc t => if t ∈ acc then acc else acc ++ [t]) []

/-- `tokens(s)`: the set of tokens of the normalized title longer than 2
characters, in insertion order. -/
def tokens (s : Str) : List Str :=
  dedupKeepFirst (((normalize s).splitOn ' ').filter (fun t => decide (2 < t.length)))

/-- `jaccard(a, b)` on token sets (sizes are the deduplicated lengths). -/
def jaccard (a b : List Str) : ℚ :=
  if a.length = 0 ∧ b.length = 0 then 0
  else
    let inter := (a.filter (fun t => t ∈ b)).length
    (inter : ℚ) / ((a.length : ℚ) + (b.length : ℚ) - (inter : ℚ))

/-- `/^action:/i.test(title.trim())`. -/
def isActionPrefixed (title : Str) : Bool :=
  "action:".data.isPrefixOf (lowerStr (strTrim title))

/-! Word-boundary keyword matching, modelling `/\b(kw1|kw2|...)\b/i` for
alternatives that begin and end with word characters (every keyword in the
source does). -/

def wordChar (c : Char) : Bool := c.isAlphanum || c = '_'

def boundaryOk : Option Char → Bool
  | none => true
  | some c => !wordChar c

/-- The keyword matches at the head of `t` with a closing word boundary. -/
def wordAt (kw t : Str) : Bool :=
  kw.isPrefixOf t && boundaryOk (t.drop kw.length).head?

def hasWordAux (kw : Str) : Option Char → Str → Bool
  | prev, [] => boundaryOk prev && wordAt kw []
  | prev, c :: rest =>
    (boundaryOk prev && wordAt kw (c :: rest)) || hasWordAux kw (some c) rest

/-- `re.test(text)` for a single word-bounded keyword (text already
lowercased). -/
def hasWordOccur (kw t : Str) : Bool := hasWordAux kw none t

def hasWordAny (kws : List Str) (t : Str) : Bool :=
  kws.any (fun kw => hasWordOccur kw t)

/-- Leftmost match of a word-bounded alternation, alternatives tried in
order at each position; returns the matched keyword. -/
def findFirstWordAux (kws : List Str) : Option Char → Str → Option Str
  | prev, [] =>
    if boundaryOk prev then kws.find? (fun kw => wordAt kw []) else none
  | prev, c :: rest =>
    match (if boundaryOk prev then kws.find? (fun kw => wordAt kw (c :: rest)) else none) with
    | some kw => some kw
    | none => findFirstWordAux kws (some c) rest

inductive DecisionType
  | habit
  | study
  | product
  | vendor
  | strategy
  | general
deriving DecidableEq, Repr

def habitKws : List Str :=
  ["habit".data, "smoke".data, "smoking".data, "run".data, "running".data,
   "fitness".data, "exercise".data, "meditat".data, "sleep".data, "diet".data,
   "drink".data, "sober".data, "gym".data, "walk".data, "yoga".data]

def studyKws : List Str :=
  ["exam".data, "university".data, "learn".data, "course".data, "study".data,
   "studying".data, "certif".data, "degree".data, "class".data, "lecture".data,
   "tutor".data, "homework".data, "grade".data]

def productKws : List Str :=
  ["onboarding".data, "feature".data, "ux".data, "ui".data, "requirements".data,
   "sprint".data, "release".data, "deploy".data, "ship".data, "mvp".data,
   "prototype".data, "a/b".data, "activation".data, "retention".data]

def vendorKws : List Str :=
  ["vendor".data, "provider".data, "tool".data, "contract".data, "saas".data,
   "integration".data, "migrate".data, "analytics vendor".data,
   "procurement".data, "rfp".data]

/-- The `q[1-4]` character class is expanded into its four alternatives. -/
def strategyKws : List Str :=
  ["pricing".data, "strategy".data, "roadmap".data, "positioning".data,
   "revenue".data, "market".data, "competitive".data, "growth".data,
   "okr".data, "quarterly".data, "q1".data, "q2".data, "q3".data, "q4".data]

/-- `classifyDecision(d)`: first keyword set matching
`title + " " + (outcome ?? "") + " " + (metric ?? "")`, in declaration
order. -/
def classifyDecision (d : DecisionInput) : DecisionType :=
  let text := lowerStr (d.title ++ " ".data ++ d.outcome.getD [] ++ " ".data ++ d.metric.getD [])
  if hasWordAny habitKws text then .habit
  else if hasWordAny studyKws text then .study
  else if hasWordAny productKws text then .product
  else if hasWordAny vendorKws text then .vendor
  else if hasWordAny strategyKws text then .strategy
  else .general

def ambiguousVerbs : List Str :=
  ["improve".data, "optimize".data, "prepare".data, "fix".data, "enhance".data,
   "streamline".data, "revamp".data, "boost".data, "refine".data, "address".data]

def hasAmbiguousVerb (title : Str) : Bool :=
  hasWordAny ambiguousVerbs (lowerStr title)

/-- `title.match(AMBIGUOUS_VERBS)?.[0]?.toLowerCase() ?? "improve"`. -/
def matchVerb (title : Str) : Str :=
  (findFirstWordAux ambiguousVerbs none (lowerStr title)).getD "improve".data

/-- Remainder of `t` after its first occurrence of `sub`, if any. -/
def afterFirst (sub : Str) : Str → Option Str
  | [] => if sub.isEmpty then some [] else none
  | c :: rest =>
    if sub.isPrefixOf (c :: rest) then some ((c :: rest).drop sub.length)
    else afterFirst sub rest

def containsSub (sub t : Str) : Bool := (afterFirst sub t).isSome

/-- `/break.*into.*step/i.test(title)` (titles reaching this test contain
no newline, so the `.`/newline distinction is immaterial). -/
def hasBreakIntoStep (title : Str) : Bool :=
  let t := lowerStr title
  match afterFirst "break".data t with
  | none => false
  | some r1 =>
    match afterFirst "into".data r1 with
    | none => false
    | some r2 => containsSub "step".data r2

/-! ### Per-type suggestion templates -/

inductive When
  | missing
  | complete
  | wAny
deriving DecidableEq, Repr

inductive Fills
  | fOutcome
  | fMetric
  | fHorizon
deriving DecidableEq, Repr

structure Template where
  title : Str
  rationale : Str
  kind : SuggestionKind
  outcome : Option Str := none
  metric : Option Str := none
  horizon : Option Str := none
  when : When
  fills : Option Fills := none
deriving DecidableEq, Repr

def habitTemplates (n : Str) : List Template :=
  [{ title := "Pick a 30-day window for \"".data ++ n ++ "\"".data,
     rationale := "Long enough to stick, short enough to feel real. Without a window this stays aspirational.".data,
     kind := .nextAction,
     outcome := some ("Maintain ".data ++ n ++ " for 30 consecutive days".data),
     horizon := some ("30 days".data),
     when := .missing,
     fills := some .fOutcome },
   { title := "Track one number daily for \"".data ++ n ++ "\"".data,
     rationale := "Right now you have no feedback loop. A daily tally makes drift visible before it compounds.".data,
     kind := .nextAction,
     metric := some ("Days streak".data),
     when := .missing,
     fills := some .fMetric },
   { title := "Name the trigger and the replacement routine".data,
     rationale := "You can\x27t change a habit you haven\x27t mapped. Identifying the cue-routine pair turns willpower into design.".data,
     kind := .nextAction,
     when := .missing,
     fills := some .fOutcome },
   { title := "Block 15 min each Sunday to review \"".data ++ n ++ "\"".data,
     rationale := "Without a regular check-in, small lapses go unnoticed until they become full relapses.".data,
     kind := .review,
     horizon := some ("1 week".data),
     when := .wAny },
   { title := "Set up one accountability mechanism".data,
     rationale := "You\x27ve defined the habit clearly — now add external friction. A partner or app makes skipping harder.".data,
     kind := .nextAction,
     when := .complete },
   { title := "Decide: is this permanent or time-boxed?".data,
     rationale := "That distinction changes how you measure success. Pin it down so you know when you\x27re done.".data,
     kind := .nextAction,
     outcome := some (n ++ " sustained for target period".data),
     when := .missing,
     fills := some .fOutcome }]

def studyTemplates (_n : Str) : List Template :=
  [{ title := "Set a target score or grade".data,
     rationale := "Without a number, studying has no natural stopping point. A target tells you when preparation is sufficient.".data,
     kind := .nextAction,
     outcome := some ("Target grade/score achieved".data),
     when := .missing,
     fills := some .fOutcome },
   { title := "Estimate hours needed and block them on your calendar".data,
     rationale := "You haven\x27t time-boxed this yet. Unscheduled study time gets eaten by everything else.".data,
     kind := .nextAction,
     metric := some ("Study hours completed".data),
     horizon := some ("exam date".data),
     when := .missing,
     fills := some .fMetric },
   { title := "Build a practice test from your weakest areas".data,
     rationale := "Active recall beats re-reading. A practice test tells you what you actually know right now.".data,
     kind := .nextAction,
     when := .wAny },
   { title := "Identify the 3 highest-weight topics".data,
     rationale := "Not all material is equal. Focusing on the top topics first gives you the most return per hour studied.".data,
     kind := .split,
     when := .missing,
     fills := some .fOutcome },
   { title := "Schedule a mock exam one week before the deadline".data,
     rationale := "Everything is defined — now stress-test it. A dry run while there\x27s still time to adjust.".data,
     kind := .review,
     when := .complete }]

def productTemplates (_n : Str) : List Template :=
  [{ title := "Define the activation event".data,
     rationale := "You\x27re building without knowing what \x27adopted\x27 looks like. Name the moment a user gets value.".data,
     kind := .nextAction,
     outcome := some ("Users reach activation event".data),
     metric := some ("Activation rate (%)".data),
     when := .missing,
     fills := some .fOutcome },
   { title := "Write a one-line success criterion".data,
     rationale := "If you can\x27t state success in one sentence, the scope is still too fuzzy to build against.".data,
     kind := .nextAction,
     outcome := some ("Feature shipped and adoption measured".data),
     when := .missing,
     fills := some .fOutcome },
   { title := "Find the riskiest assumption and design a quick test".data,
     rationale := "There\x27s at least one thing you\x27re assuming that hasn\x27t been validated. Finding it now saves build time later.".data,
     kind := .nextAction,
     when := .wAny },
   { title := "Set a ship date and cut scope to fit".data,
     rationale := "No deadline means no forcing function. Pick a date, then decide what fits inside it.".data,
     kind := .nextAction,
     horizon := some ("this sprint".data),
     when := .missing,
     fills := some .fHorizon },
   { title := "Draft a 3-bullet release note now".data,
     rationale := "Writing the announcement before building clarifies what users will actually care about.".data,
     kind := .nextAction,
     when := .complete },
   { title := "Run a 30-min alignment check with stakeholders".data,
     rationale := "Everything is defined, but misaligned expectations still cause late rework. A quick sync prevents that.".data,
     kind := .review,
     when := .complete }]

def vendorTemplates (_n : Str) : List Template :=
  [{ title := "Write down 3 must-have criteria before looking at vendors".data,
     rationale := "Without criteria, you\x27ll compare feature lists instead of fit. Define what matters before you evaluate.".data,
     kind := .nextAction,
     outcome := some ("Evaluation criteria documented".data),
     when := .missing,
     fills := some .fOutcome },
   { title := "Set a hard decision deadline".data,
     rationale := "Vendor decisions expand to fill available time. A deadline forces you to commit with what you know.".data,
     kind := .nextAction,
     horizon := some ("2 weeks".data),
     when := .missing,
     fills := some .fHorizon },
   { title := "Request a trial from your top 2 candidates".data,
     rationale := "Demos hide integration pain. Hands-on testing surfaces the real costs before you sign.".data,
     kind := .nextAction,
     metric := some ("Integration time (hours)".data),
     when := .missing,
     fills := some .fMetric },
   { title := "Calculate total cost of ownership, not just license".data,
     rationale := "Migration, training, and maintenance often exceed the sticker price. Get the full number now.".data,
     kind := .nextAction,
     metric := some ("Total cost of ownership ($)".data),
     when := .wAny },
   { title := "Write a 1-page decision memo".data,
     rationale := "A written rationale now prevents re-litigation later. If people agreed verbally, they\x27ll forget why.".data,
     kind := .review,
     when := .complete }]

def strategyTemplates (_n : Str) : List Template :=
  [{ title := "Pick the single metric this strategy should move".data,
     rationale := "Right now there\x27s no way to tell if this is working. One number makes progress visible.".data,
     kind := .nextAction,
     metric := some ("Primary KPI".data),
     when := .missing,
     fills := some .fMetric },
   { title := "List the top 3 risks".data,
     rationale := "Unnamed risks become surprises. Writing them down turns them into contingencies you can plan for.".data,
     kind := .nextAction,
     outcome := some ("Risk register created".data),
     when := .missing,
     fills := some .fOutcome },
   { title := "Set a 90-day checkpoint".data,
     rationale := "Without a review date, strategies drift silently. A quarterly check matches natural business cycles.".data,
     kind := .nextAction,
     horizon := some ("90 days".data),
     when := .missing,
     fills := some .fHorizon },
   { title := "Write a one-page strategy brief".data,
     rationale := "If it doesn\x27t fit on one page, it\x27s not clear enough to execute. Compression forces precision.".data,
     kind := .nextAction,
     when := .wAny },
   { title := "Run a pre-mortem: assume it failed — why?".data,
     rationale := "You\x27ve defined everything. Now find the holes. Imagining failure surfaces blind spots optimism misses.".data,
     kind := .review,
     when := .complete },
   { title := "Align with one key stakeholder this week".data,
     rationale := "Early misalignment is cheap to fix. The longer you wait, the more expensive a pivot becomes.".data,
     kind := .nextAction,
     when := .wAny }]

def generalTemplates (n : Str) : List Template :=
  [{ title := "Finish this sentence: \"This is successful when…\"".data,
     rationale := "You don\x27t have a success definition yet. One sentence forces you to commit to what done looks like.".data,
     kind := .nextAction,
     outcome := some (n ++ " completed successfully".data),
     when := .missing,
     fills := some .fOutcome },
   { title := "Pick one number to track progress".data,
     rationale := "Without a metric, you can\x27t tell if you\x27re moving. One number is better than a dashboard.".data,
     kind := .nextAction,
     metric := some ("Progress indicator".data),
     when := .missing,
     fills := some .fMetric },
   { title := "Give yourself a 2-week deadline".data,
     rationale := "Open-ended goals stall. A short deadline creates urgency — you can always extend later.".data,
     kind := .nextAction,
     horizon := some ("2 weeks".data),
     when := .missing,
     fills := some .fHorizon },
   { title := "Identify the first concrete step (under 30 min)".data,
     rationale := "Right now this is still an intention. A tiny first action turns it into something in motion.".data,
     kind := .nextAction,
     when := .wAny },
   { title := "Write down what would make you abandon this".data,
     rationale := "Kill criteria keep you honest. Without them, sunk cost will keep you going past the point of return.".data,
     kind := .review,
     when := .complete },
   { title := "Schedule a check-in with someone who has a stake in this".data,
     rationale := "An external touchpoint adds both accountability and perspective you don\x27t have alone.".data,
     kind := .review,
     when := .wAny }]

/-- `buildTemplates(d, dtype)`. -/
def buildTemplates (d : DecisionInput) (dtype : DecisionType) : List Template :=
  let n := normalize d.title
  match dtype with
  | .habit => habitTemplates n
  | .study => studyTemplates n
  | .product => productTemplates n
  | .vendor => vendorTemplates n
  | .strategy => strategyTemplates n
  | .general => generalTemplates n

/-- `!!(outcome && metric && horizon)` for a decision. -/
def isCompleteD (d : DecisionInput) : Bool :=
  truthyStr d.outcome && truthyStr d.metric && truthyStr d.horizon

/-- `buildValidationSuggestion(d, dtype)`. -/
def buildValidationSuggestion (d : DecisionInput) (dtype : DecisionType) : Suggestion :=
  let n := normalize d.title
  let isComplete := isCompleteD d
  if isActionPrefixed d.title then
    { title := "Write one sentence: how do you know \"".data ++ n ++ "\" is done?".data,
      rationale := "Without a done-check, action items linger. A single sentence closes the loop.".data,
      kind := .validation }
  else
    match dtype with
    | .habit =>
      if isComplete then
        { title := "Write down your top 3 relapse triggers for \"".data ++ n ++ "\"".data,
          rationale := "You\x27ve defined the habit well. The gap now is knowing what will derail it — name those situations while you\x27re clear-headed.".data,
          kind := .validation }
      else
        { title := "What one environment change would make \"".data ++ n ++ "\" easier?".data,
          rationale := "Willpower runs out. Changing your environment doesn\x27t. Identify the easiest change you can make today.".data,
          kind := .validation }
    | .study =>
      { title := "Try explaining the core concept in 2 sentences".data,
        rationale := "If you can\x27t explain it simply, that\x27s your study priority. This takes 2 minutes and shows you exactly where the gaps are.".data,
        kind := .validation }
    | .vendor =>
      { title := "Write down the cost of choosing wrong".data,
        rationale := "Quantifying the downside tells you how much diligence this decision actually deserves. Some vendor picks are reversible — is this one?".data,
        kind := .validation }
    | .product =>
      if isComplete then
        { title := "Name the riskiest assumption behind \"".data ++ n ++ "\" and sketch a 30-min test".data,
          rationale := "Everything is defined, but there\x27s at least one untested assumption baked in. Finding it now is cheaper than finding it after launch.".data,
          kind := .validation }
      else
        { title := "If this feature fails, what signal will you see first?".data,
          rationale := "Defining the failure signal now means you can catch problems early instead of waiting for a post-mortem.".data,
          kind := .validation }
    | .strategy =>
      if isComplete then
        { title := "Spend 5 min on a pre-mortem: assume \"".data ++ n ++ "\" failed — why?".data,
          rationale := "The plan looks solid on paper. Pre-mortems find the holes that optimism misses, while you still have time to adjust.".data,
          kind := .validation }
      else
        { title := "Ask one stakeholder: does this match what you expect?".data,
          rationale := "Misalignment is cheap to fix now and expensive to fix later. One conversation surfaces it.".data,
          kind := .validation }
    | .general =>
      if isComplete then
        { title := "List 3 things that would make you walk away from \"".data ++ n ++ "\"".data,
          rationale := "Everything is defined — now protect yourself from sunk cost. Kill criteria keep you honest when momentum clouds judgment.".data,
          kind := .validation }
      else
        { title := "What\x27s the single biggest risk to \"".data ++ n ++ "\"?".data,
          rationale := "Naming the top risk often reveals the real next step. Spend 2 minutes on this before anything else.".data,
          kind := .validation }

/-! ### Candidate accumulation (`generateSuggestions`, steps 1–7)

Candidates carry a provenance tag (`SugSrc`) recording which step of the
algorithm produced them; `generateSuggestions` erases the tag, so the
tagged pipeline computes exactly the source's candidate list. -/

inductive SugSrc
  | fromTemplate (when : When)
  | ambiguousVerb
  | actionPrefix
  | similarityReuse
  | unblock
  | trackerState
  | validationStep
deriving DecidableEq, Repr

structure SugT where
  s : Suggestion
  src : SugSrc
deriving DecidableEq, Repr

def tmplToSug (t : Template) : Suggestion :=
  { title := t.title, rationale := t.rationale, kind := t.kind,
    outcome := t.outcome, metric := t.metric, horizon := t.horizon }

def tmplToSugT (t : Template) : SugT := ⟨tmplToSug t, .fromTemplate t.when⟩

/-- Template eligibility by completeness state. -/
def eligibleFor (isComplete : Bool) (t : Template) : Bool :=
  match t.when with
  | .wAny => true
  | .missing => !isComplete
  | .complete => isComplete

/-- `fieldPriority` lookup with the `: 10` default. -/
def fieldPriorityOf : Option Fills → Nat
  | some .fOutcome => 0
  | some .fMetric => 1
  | some .fHorizon => 2
  | none => 10

/-- First selection loop over eligible templates: up to 2 picks, never two
filling the same field. -/
def pickFillLoop : List Template → List SugT → List Fills → List SugT × List Fills
  | [], cands, filled => (cands, filled)
  | t :: rest, cands, filled =>
    if 2 ≤ cands.length then (cands, filled)
    else
      match t.fills with
      | some f =>
        if f ∈ filled then pickFillLoop rest cands filled
        else pickFillLoop rest (cands ++ [tmplToSugT t]) (filled ++ [f])
      | none => pickFillLoop rest (cands ++ [tmplToSugT t]) filled

/-- Second selection loop: one more eligible template for variety. -/
def varietyLoop : List Template → List SugT → List Fills → List SugT
  | [], cands, _ => cands
  | t :: rest, cands, filled =>
    if 3 ≤ cands.length then cands
    else if cands.any (fun c => c.s.title == t.title) then varietyLoop rest cands filled
    else if (match t.fills with | some f => decide (f ∈ filled) | none => false) then
      varietyLoop rest cands filled
    else varietyLoop rest (cands ++ [tmplToSugT t]) filled

/-- The step-2 (ambiguous-verb) candidate. -/
def ambigSug (decision : DecisionInput) : SugT :=
  let verb := matchVerb decision.title
  ⟨{ title := "Replace \"".data ++ verb ++ "\" with a specific, measurable target".data,
     rationale := "\"".data ++ verb ++ "\" doesn\x27t tell you when you\x27re done. A concrete number makes progress visible and keeps you from moving goalposts.".data,
     kind := .nextAction,
     metric := some (normalize decision.title ++ " score".data) }, .ambiguousVerb⟩

/-- The eligible templates, ranked by the field-priority comparator
(`Array.prototype.sort` is stable; `List.mergeSort` models it). -/
def eligibleSorted (decision : DecisionInput) : List Template :=
  ((buildTemplates decision (classifyDecision decision)).filter
      (eligibleFor (isCompleteD decision))).mergeSort
    (fun a b => decide (fieldPriorityOf a.fills ≤ fieldPriorityOf b.fills))

/-- Steps 1–2 of the main algorithm (templates + ambiguous-verb
heuristic). -/
def candsThroughStep2 (decision : DecisionInput) : List SugT :=
  let eligible := eligibleSorted decision
  let picked := pickFillLoop eligible [] []
  let cands2 := varietyLoop eligible picked.1 picked.2
  if hasAmbiguousVerb decision.title && !truthyStr decision.metric then
    cands2 ++ [ambigSug decision]
  else cands2

/-- The acceptance-criteria candidate of step 3. -/
def actionOutcomeSug (decision : DecisionInput) : SugT :=
  ⟨{ title := "Write acceptance criteria for this action".data,
     rationale := "Without criteria, this action has no natural finish line. One sentence prevents it from creeping in scope.".data,
     kind := .nextAction,
     outcome := some (normalize decision.title ++ " completed and verified".data) },
   .actionPrefix⟩

/-- The done-check candidate of step 3. -/
def actionMetricSug : SugT :=
  ⟨{ title := "Add a concrete done-check".data,
     rationale := "Even small actions need a completion signal. Otherwise they sit at \x27in-progress\x27 indefinitely.".data,
     kind := .nextAction,
     metric := some ("Done check (yes/no)".data) }, .actionPrefix⟩

/-- Step 3: action-prefix handling. -/
def candsThroughStep3 (decision : DecisionInput) : List SugT :=
  let cands3 := candsThroughStep2 decision
  if isActionPrefixed decision.title then
    let filtered := cands3.filter (fun c => !hasBreakIntoStep c.s.title)
    let f2 :=
      if !truthyStr decision.outcome then filtered ++ [actionOutcomeSug decision]
      else filtered
    if !truthyStr decision.metric then f2 ++ [actionMetricSug]
    else f2
  else cands3

/-- Step 4 scan: the running `bestMatch`/`bestScore` pair. -/
def bestMatchOf (decision : DecisionInput) (allDecisions : List DecisionInput) :
    Option DecisionInput × ℚ :=
  let myTokens := tokens decision.title
  allDecisions.foldl
    (fun acc other =>
      if other.id == decision.id then acc
      else
        let score := jaccard myTokens (tokens other.title)
        if acc.2 < score then (some other, score) else acc)
    (none, 0)

def reuseOutcomeSug (bm : DecisionInput) : SugT :=
  ⟨{ title := "Use the same outcome framing as \"".data ++ bm.title ++ "\"".data,
     rationale := "\"".data ++ bm.outcome.getD [] ++ "\" — these decisions are related. Consistent outcomes make it easier to see progress across both.".data,
     kind := .followUp, outcome := bm.outcome }, .similarityReuse⟩

def reuseMetricSug (bm : DecisionInput) : SugT :=
  ⟨{ title := "Reuse the metric from \"".data ++ bm.title ++ "\"".data,
     rationale := "\"".data ++ bm.metric.getD [] ++ "\" already tracks something similar. Using the same metric avoids double-counting and simplifies review.".data,
     kind := .followUp, metric := bm.metric }, .similarityReuse⟩

def reuseHorizonSug (bm : DecisionInput) : SugT :=
  ⟨{ title := "Sync the timeline with \"".data ++ bm.title ++ "\"".data,
     rationale := "\"".data ++ bm.horizon.getD [] ++ "\" — aligning timelines for related decisions reduces coordination overhead.".data,
     kind := .followUp, horizon := bm.horizon }, .similarityReuse⟩

/-- Step 4: similarity-reuse candidate. -/
def candsThroughStep4 (decision : DecisionInput) (allDecisions : List DecisionInput) :
    List SugT :=
  let cands4 := candsThroughStep3 decision
  match bestMatchOf decision allDecisions with
  | (some bm, score) =>
    if (1 : ℚ)/4 ≤ score then
      if !truthyStr decision.outcome && truthyStr bm.outcome then
        cands4 ++ [reuseOutcomeSug bm]
      else if !truthyStr decision.metric && truthyStr bm.metric then
        cands4 ++ [reuseMetricSug bm]
      else if !truthyStr decision.horizon && truthyStr bm.horizon then
        cands4 ++ [reuseHorizonSug bm]
      else cands4
    else cands4
  | (none, _) => cands4

def unblockOptions : List SugT :=
  [⟨{ title := "Book a 30-min stakeholder review this week".data,
      rationale := "This decision is defined but stalled. External input often breaks the logjam faster than more analysis.".data,
      kind := .review }, .unblock⟩,
   ⟨{ title := "Write a 1-page decision memo".data,
      rationale := "If you can write it down clearly, you can decide. If you can\x27t, the memo shows you exactly where you\x27re stuck.".data,
      kind := .nextAction }, .unblock⟩,
   ⟨{ title := "Run a 30-min experiment to test your key assumption".data,
      rationale := "You\x27re in-progress but not moving. A small experiment resolves uncertainty faster than more deliberation.".data,
      kind := .nextAction }, .unblock⟩]

/-- Step 5: in-progress unblock suggestion. -/
def candsThroughStep5 (decision : DecisionInput) (allDecisions : List DecisionInput) :
    List SugT :=
  let cands5 := candsThroughStep4 decision allDecisions
  if decision.status == some "in-progress".data && isCompleteD decision then
    match unblockOptions.find?
        (fun opt => !cands5.any (fun c => c.s.title == opt.s.title)) with
    | some opt => cands5 ++ [opt]
    | none => cands5
  else cands5

def trackerTodoSug (todoN : Nat) : SugT :=
  ⟨{ title := "Pick one decision and start it now".data,
     rationale := "You have ".data ++ natStr todoN ++ " decisions queued and nothing in-progress. Starting one — any one — creates momentum that makes the rest easier.".data,
     kind := .review }, .trackerState⟩

def trackerWipSug (inProgressN : Nat) : SugT :=
  ⟨{ title := "Pause one in-progress decision to focus".data,
     rationale := natStr inProgressN ++ " decisions in flight at once. Dropping one improves throughput on the rest — pick the one that matters least this week.".data,
     kind := .cleanup }, .trackerState⟩

def trackerDoneSug (doneN : Nat) : SugT :=
  ⟨{ title := "Review what you\x27ve finished before adding more".data,
     rationale := natStr doneN ++ " decisions completed. Before loading up again, spend 10 minutes reflecting on what worked and what to carry forward.".data,
     kind := .review }, .trackerState⟩

/-- Step 6: tracker-state suggestions. -/
def candsThroughStep6 (decision : DecisionInput) (allDecisions : List DecisionInput) :
    List SugT :=
  let cands6 := candsThroughStep5 decision allDecisions
  if !allDecisions.isEmpty then
    let todoN := (allDecisions.filter (fun x => x.status == some "todo".data)).length
    let inProgressN :=
      (allDecisions.filter (fun x => x.status == some "in-progress".data)).length
    let doneN := (allDecisions.filter (fun x => x.status == some "done".data)).length
    let c1 := if 4 ≤ todoN && inProgressN == 0 then cands6 ++ [trackerTodoSug todoN] else cands6
    let c2 := if 2 ≤ inProgressN then c1 ++ [trackerWipSug inProgressN] else c1
    if 5 ≤ doneN then c2 ++ [trackerDoneSug doneN]
    else c2
  else cands6

/-- The full candidate pool: steps 1–6 followed by the always-appended
validation suggestion (step 7). -/
def allCandidates (decision : DecisionInput) (allDecisions : List DecisionInput) :
    List SugT :=
  candsThroughStep6 decision allDecisions ++
    [⟨buildValidationSuggestion decision (classifyDecision decision), .validationStep⟩]

/-! ### Final selection (dedup by lowercase title) -/

def sugKey (x : SugT) : Str := lowerStr x.s.title

/-- First pass: up to 2 non-validation suggestions. -/
def pass1 : List SugT → List SugT → List Str → List SugT × List Str
  | [], acc, seen => (acc, seen)
  | x :: rest, acc, seen =>
    if 2 ≤ acc.length then (acc, seen)
    else if x.s.kind == .validation then pass1 rest acc seen
    else if sugKey x ∈ seen then pass1 rest acc seen
    else pass1 rest (acc ++ [x]) (seen ++ [sugKey x])

/-- Second pass: the guaranteed validation slot (first unseen validation
candidate). -/
def pass2 : List SugT → List SugT → List Str → List SugT × List Str
  | [], acc, seen => (acc, seen)
  | x :: rest, acc, seen =>
    if x.s.kind ≠ .validation then pass2 rest acc seen
    else if sugKey x ∈ seen then pass2 rest acc seen
    else (acc ++ [x], seen ++ [sugKey x])

/-- Third pass: one optional extra follow-up/reuse suggestion. -/
def pass3 : List SugT → List SugT → List Str → List SugT
  | [], acc, _ => acc
  | x :: rest, acc, seen =>
    if 4 ≤ acc.length then acc
    else if sugKey x ∈ seen then pass3 rest acc seen
    else if x.s.kind == .followUp || x.s.kind == .reuse then acc ++ [x]
    else pass3 rest acc seen

/-- `generateSuggestions(decision, allDecisions)` with provenance tags. -/
def generateSuggestionsT (decision : DecisionInput)
    (allDecisions : List DecisionInput) : List SugT :=
  let cands := allCandidates decision allDecisions
  let p1 := pass1 cands [] []
  let p2 := pass2 cands p1.1 p1.2
  pass3 cands p2.1 p2.2

/-- `generateSuggestions(decision, allDecisions)`. -/
def generateSuggestions (decision : DecisionInput)
    (allDecisions : List DecisionInput) : List Suggestion :=
  (generateSuggestionsT decision allDecisions).map (·.s)

/-! ## Verification helper definitions -/

/-- Two strings disagree, after lowercasing, at some position inside both:
a decidable sufficient condition for distinct dedup keys. -/
def keyClash : Str → Str → Bool
  | p :: ps, q :: qs => (Char.toLower p ≠ Char.toLower q) || keyClash ps qs
  | _, _ => false

/-- The literal title prefixes of every non-validation candidate the
engine can produce (template titles up to their first interpolation, plus
the step 2–6 candidate titles). -/
def candPrefixes : List Str :=
  ["Pick a 30-day window for \"".data,
   "Track one number daily for \"".data,
   "Name the trigger and the replacement routine".data,
   "Block 15 min each Sunday to review \"".data,
   "Set up one accountability mechanism".data,
   "Decide: is this permanent or time-boxed?".data,
   "Set a target score or grade".data,
   "Estimate hours needed and block them on your calendar".data,
   "Build a practice test from your weakest areas".data,
   "Identify the 3 highest-weight topics".data,
   "Schedule a mock exam one week before the deadline".data,
   "Define the activation event".data,
   "Write a one-line success criterion".data,
   "Find the riskiest assumption and design a quick test".data,
   "Set a ship date and cut scope to fit".data,
   "Draft a 3-bullet release note now".data,
   "Run a 30-min alignment check with stakeholders".data,
   "Write down 3 must-have criteria before looking at vendors".data,
   "Set a hard decision deadline".data,
   "Request a trial from your top 2 candidates".data,
   "Calculate total cost of ownership, not just license".data,
   "Write a 1-page decision memo".data,
   "Pick the single metric this strategy should move".data,
   "List the top 3 risks".data,
   "Set a 90-day checkpoint".data,
   "Write a one-page strategy brief".data,
   "Run a pre-mortem: assume it failed — why?".data,
   "Align with one key stakeholder this week".data,
   "Finish this sentence: \"This is successful when…\"".data,
   "Pick one number to track progress".data,
   "Give yourself a 2-week deadline".data,
   "Identify the first concrete step (under 30 min)".data,
   "Write down what would make you abandon this".data,
   "Schedule a check-in with someone who has a stake in this".data,
   "Replace \"".data,
   "Write acceptance criteria for this action".data,
   "Add a concrete done-check".data,
   "Use the same outcome framing as \"".data,
   "Reuse the metric from \"".data,
   "Sync the timeline with \"".data,
   "Book a 30-min stakeholder review this week".data,
   "Run a 30-min experiment to test your key assumption".data,
   "Pick one decision and start it now".data,
   "Pause one in-progress decision to focus".data,
   "Review what you\x27ve finished before adding more".data]

/-- The literal title prefixes of the eleven validation-suggestion
variants. -/
def vPrefixes : List Str :=
  ["Write one sentence: how do you know \"".data,
   "Write down your top 3 relapse triggers for \"".data,
   "What one environment change would make \"".data,
   "Try explaining the core concept in 2 sentences".data,
   "Write down the cost of choosing wrong".data,
   "Name the riskiest assumption behind \"".data,
   "If this feature fails, what signal will you see first?".data,
   "Spend 5 min on a pre-mortem: assume \"".data,
   "Ask one stakeholder: does this match what you expect?".data,
   "List 3 things that would make you walk away from \"".data,
   "What\x27s the single biggest risk to \"".data]

/-- The C1 failing input: a goal and a child action, built through the
domain `addTask` (the same collection the `/reset` seed data persists). -/
def c1Tracker : TaskTracker :=
  (((({} : TaskTracker).addTask "Ship v2".data {}).2).addTask
    "Write changelog".data { parentId := some 1 }).2

/-- A task store reached through public operations only: a goal, an action
whose `parentId` (5) dangles at creation time, the action started while
its parent does not exist yet, and then three more goals so that id 5 is
later assigned to a fresh `todo` goal. -/
def c3Store : TaskTracker :=
  let tr := (({} : TaskTracker).addTask "goal one".data {}).2
  let tr := (tr.addTask "orphan action".data { parentId := some 5 }).2
  let tr := (safeStartTask tr 2).2
  let tr := (tr.addTask "third goal".data {}).2
  let tr := (tr.addTask "fourth goal".data {}).2
  (tr.addTask "fifth goal".data {}).2

/-! ## General helper lemmas -/

theorem find?_map_of_id (l : List Task) (pid : Nat) (f : Task → Task)
    (hf : ∀ u, (f u).id = u.id) :
    (l.map f).find? (fun u => u.id == pid) = (l.find? (fun u => u.id == pid)).map f := by
  rw [List.find?_map]
  have : ((fun u => u.id == pid) ∘ f) = (fun u => u.id == pid) := by
    funext u
    simp [Function.comp, hf]
  rw [this]

theorem find?_id_eq {l : List Task} {pid : Nat} {t : Task}
    (h : l.find? (fun u => u.id == pid) = some t) : t.id = pid := by
  have := List.find?_some h
  simpa using this

theorem find?_id_mem {l : List Task} {pid : Nat} {t : Task}
    (h : l.find? (fun u => u.id == pid) = some t) : t ∈ l :=
  List.mem_of_find?_eq_some h

/-! ## Claim theorems -/

/-- C1: the round-trip claim fails on the code.  For the tracker holding a
goal (id 1) and a child action (id 2, `parentId` 1, `kind` "action"),
saving and reloading yields a task 2 with no `parentId` and `kind` "goal":
the replay in `loadTracker` goes through `SafeTaskTracker.addTask(title)`,
which passes no parent/kind options to the domain model.  All other tuple
components survive; the `(parentId, kind)` components do not. -/
theorem C1_roundtrip_drops_parent_and_kind :
    (loadTracker (saveTracker c1Tracker)).tasks ≠ c1Tracker.tasks ∧
    ((loadTracker (saveTracker c1Tracker)).tasks.map fun t => (t.id, t.parentId, t.kind)) =
      [(1, none, some .goal), (2, none, some .goal)] ∧
    (c1Tracker.tasks.map fun t => (t.id, t.parentId, t.kind)) =
      [(1, none, some .goal), (2, some 1, some .action)] ∧
    ((loadTracker (saveTracker c1Tracker)).tasks.map fun t => (t.id, t.title, t.status)) =
      (c1Tracker.tasks.map fun t => (t.id, t.title, t.status)) := by
  decide

/-- C4: `start` on a non-`todo` task and `complete` on a non-`in-progress`
task yield `INVALID_TRANSITION` through the boundary facade and leave the
whole tracker state unchanged. -/
theorem C4_invalid_transition_unchanged (tr : TaskTracker) (id : Nat) (t : Task)
    (hfind : tr.tasks.find? (fun u => u.id == id) = some t) :
    (t.status ≠ .todo → safeStartTask tr id = (.err .INVALID_TRANSITION, tr)) ∧
    (t.status ≠ .inProgress → safeCompleteTask tr id = (.err .INVALID_TRANSITION, tr)) := by
  constructor
  · intro h
    simp only [safeStartTask, TaskTracker.startTask, TaskTracker.transition, hfind, if_pos h]
    rfl
  · intro h
    simp only [safeCompleteTask, TaskTracker.completeTask, TaskTracker.transition, hfind,
      if_pos h]
    rfl

/-- C4 witness: concrete error paths at an in-progress task (start) and a
todo task (complete). -/
theorem C4_witness :
    safeStartTask { tasks := [{ id := 1, title := "t".data, status := .inProgress }] } 1 =
      (.err .INVALID_TRANSITION,
       { tasks := [{ id := 1, title := "t".data, status := .inProgress }] }) ∧
    safeCompleteTask { tasks := [{ id := 1, title := "t".data, status := .todo }] } 1 =
      (.err .INVALID_TRANSITION,
       { tasks := [{ id := 1, title := "t".data, status := .todo }] }) :=
  ⟨(C4_invalid_transition_unchanged _ 1
      { id := 1, title := "t".data, status := .inProgress } (by decide)).1 (by decide),
   (C4_invalid_transition_unchanged _ 1
      { id := 1, title := "t".data, status := .todo } (by decide)).2 (by decide)⟩

/-- C8: a successful `startTask` on a `todo` action whose parent goal is
`todo` sets the action to `in-progress` and promotes the parent to
`in-progress` in the same operation. -/
theorem C8_start_promotes_todo_parent (tr : TaskTracker) (id p : Nat) (t par : Task)
    (hfind : tr.tasks.find? (fun u => u.id == id) = some t)
    (hst : t.status = .todo)
    (hpid : t.parentId = some p) (hp0 : p ≠ 0) (hne : p ≠ id)
    (hpar : tr.tasks.find? (fun u => u.id == p) = some par)
    (hpst : par.status = .todo) :
    tr.startTask id =
      .ok ({ t with status := .inProgress },
           (tr.setStatusOf id .inProgress).setStatusOf p .inProgress) ∧
    ((((tr.setStatusOf id .inProgress).setStatusOf p .inProgress).tasks.find?
        (fun u => u.id == p)).map Task.status) = some .inProgress := by
  have hparid : par.id = p := find?_id_eq hpar
  have hids : ∀ u : Task,
      ((if u.id == id then { u with status := TaskStatus.inProgress } else u) : Task).id = u.id := by
    intro u
    by_cases h : u.id == id <;> simp [h]
  have hfind1 : (tr.setStatusOf id .inProgress).tasks.find? (fun u => u.id == p) = some par := by
    unfold TaskTracker.setStatusOf
    rw [find?_map_of_id _ _ _ hids, hpar]
    simp [hparid, hne]
  constructor
  · simp only [TaskTracker.startTask, TaskTracker.transition, hfind]
    have hnn : ¬ t.status ≠ TaskStatus.todo := by simp [hst]
    rw [if_neg hnn]
    simp only [hpid, truthyNat, Option.getD_some]
    rw [if_pos (by simpa using hp0)]
    simp only [hfind1]
    rw [if_pos hpst]
  · have hids2 : ∀ u : Task,
        ((if u.id == p then { u with status := TaskStatus.inProgress } else u) : Task).id = u.id := by
      intro u
      by_cases h : u.id == p <;> simp [h]
    show ((((tr.setStatusOf id .inProgress).setStatusOf p .inProgress).tasks.find?
        (fun u => u.id == p)).map Task.status) = some .inProgress
    unfold TaskTracker.setStatusOf
    rw [find?_map_of_id _ _ _ hids2]
    have : (tr.setStatusOf id .inProgress).tasks.find? (fun u => u.id == p) = some par := hfind1
    unfold TaskTracker.setStatusOf at this
    rw [this]
    simp [hparid]

/-- C8 witness: goal 1 (`todo`) with child action 2 (`todo`); starting 2
promotes both. -/
theorem C8_witness :
    (let tr : TaskTracker :=
      { tasks := [{ id := 1, title := "g".data, status := .todo },
                  { id := 2, title := "a".data, status := .todo, parentId := some 1 }],
        nextId := 3 }
     tr.startTask 2 =
       .ok ({ id := 2, title := "a".data, status := .inProgress, parentId := some 1 },
            (tr.setStatusOf 2 .inProgress).setStatusOf 1 .inProgress) ∧
     ((((tr.setStatusOf 2 .inProgress).setStatusOf 1 .inProgress).tasks.find?
         (fun u => u.id == 1)).map Task.status) = some .inProgress) :=
  C8_start_promotes_todo_parent _ 2 1
    { id := 2, title := "a".data, status := .todo, parentId := some 1 }
    { id := 1, title := "g".data, status := .todo }
    (by decide) (by decide) (by decide) (by decide) (by decide) (by decide) (by decide)

/-- C10: `addTask` performs no existence check on `parentId`, and for an
action whose `parentId` resolves to no task, `startTask`/`completeTask`
succeed with the parent cascade silently skipped: the resulting task list
is exactly the input list with only the transitioned action's status
changed. -/
theorem C10_dangling_parent_frame (tr : TaskTracker) (title : Str) (p : Nat)
    (k : Option TaskKind) (id : Nat) (t : Task)
    (hdang : ∀ u ∈ tr.tasks, u.id ≠ p) :
    (p ≠ 0 →
      tr.addTask title { parentId := some p, kind := k } =
        ({ id := tr.nextId, title := title, status := .todo, parentId := some p,
           kind := some (k.getD .action) },
         { tasks := tr.tasks ++
             [{ id := tr.nextId, title := title, status := .todo, parentId := some p,
                kind := some (k.getD .action) }],
           nextId := tr.nextId + 1 })) ∧
    (tr.tasks.find? (fun u => u.id == id) = some t → t.status = .todo →
      t.parentId = some p →
      tr.startTask id = .ok ({ t with status := .inProgress }, tr.setStatusOf id .inProgress)) ∧
    (tr.tasks.find? (fun u => u.id == id) = some t → t.status = .inProgress →
      t.parentId = some p →
      tr.completeTask id = .ok ({ t with status := .done }, tr.setStatusOf id .done)) := by
  have hnone : tr.tasks.find? (fun u => u.id == p) = none := by
    rw [List.find?_eq_none]
    intro u hu
    simpa using hdang u hu
  refine ⟨fun hp0 => ?_, fun hfind hst hpid => ?_, fun hfind hst hpid => ?_⟩
  · simp [TaskTracker.addTask, truthyNat, hp0]
  · have hids : ∀ u : Task,
        ((if u.id == id then { u with status := TaskStatus.inProgress } else u) : Task).id = u.id := by
      intro u
      by_cases h : u.id == id <;> simp [h]
    simp only [TaskTracker.startTask, TaskTracker.transition, hfind]
    rw [if_neg (by simp [hst])]
    by_cases hp0 : p = 0
    · simp [hpid, truthyNat, hp0]
    · simp only [hpid, truthyNat, Option.getD_some]
      rw [if_pos (by simpa using hp0)]
      unfold TaskTracker.setStatusOf
      rw [find?_map_of_id _ _ _ hids, hnone]
      rfl
  · have hids : ∀ u : Task,
        ((if u.id == id then { u with status := TaskStatus.done } else u) : Task).id = u.id := by
      intro u
      by_cases h : u.id == id <;> simp [h]
    simp only [TaskTracker.completeTask, TaskTracker.transition, hfind]
    rw [if_neg (by simp [hst])]
    by_cases hp0 : p = 0
    · simp [hpid, truthyNat, hp0]
    · simp only [hpid, truthyNat, Option.getD_some]
      rw [if_pos (by simpa using hp0)]
      unfold TaskTracker.setStatusOf
      rw [find?_map_of_id _ _ _ hids, hnone]
      rfl

/-- C10 witness: a dangling-parent action (parent id 9 never exists) is
added, started and completed; every other task is left untouched. -/
theorem C10_witness :
    (let tr : TaskTracker :=
      { tasks := [{ id := 1, title := "g".data, status := .todo }], nextId := 2 }
     tr.addTask "a".data { parentId := some 9, kind := none } =
       ({ id := 2, title := "a".data, status := .todo, parentId := some 9,
          kind := some .action },
        { tasks := tr.tasks ++
            [{ id := 2, title := "a".data, status := .todo, parentId := some 9,
               kind := some .action }],
          nextId := 3 })) ∧
    (let tr2 : TaskTracker :=
      { tasks := [{ id := 1, title := "g".data, status := .todo },
                  { id := 2, title := "a".data, status := .todo, parentId := some 9,
                    kind := some .action }],
        nextId := 3 }
     tr2.startTask 2 =
       .ok ({ id := 2, title := "a".data, status := .inProgress, parentId := some 9,
              kind := some .action }, tr2.setStatusOf 2 .inProgress)) ∧
    (let tr3 : TaskTracker :=
      { tasks := [{ id := 1, title := "g".data, status := .todo },
                  { id := 2, title := "a".data, status := .inProgress, parentId := some 9,
                    kind := some .action }],
        nextId := 3 }
     tr3.completeTask 2 =
       .ok ({ id := 2, title := "a".data, status := .done, parentId := some 9,
              kind := some .action }, tr3.setStatusOf 2 .done)) :=
  ⟨(C10_dangling_parent_frame _ "a".data 9 none 2
      { id := 2, title := "a".data, status := .todo, parentId := some 9, kind := some .action }
      (by decide)).1 (by decide),
   (C10_dangling_parent_frame _ "a".data 9 none 2
      { id := 2, title := "a".data, status := .todo, parentId := some 9, kind := some .action }
      (by decide)).2.1 (by decide) (by decide) (by decide),
   (C10_dangling_parent_frame _ "a".data 9 none 2
      { id := 2, title := "a".data, status := .inProgress, parentId := some 9,
        kind := some .action }
      (by decide)).2.2 (by decide) (by decide) (by decide)⟩

/-- C3 counterexample: in `c3Store` (reached through public operations
only), task 2 is the last remaining non-`done` sibling action under parent
5, yet completing it leaves parent 5 at `todo` — the code only promotes an
`in-progress` parent to `done`. -/
theorem C3_counterexample :
    (c3Store.tasks.map fun u => (u.id, u.status, u.parentId)) =
      [(1, .todo, none), (2, .inProgress, some 5), (3, .todo, none), (4, .todo, none),
       (5, .todo, none)] ∧
    (∀ u ∈ c3Store.tasks, u.parentId = some 5 → u.id = 2) ∧
    ((c3Store.completeTask 2).toOption.map fun r => r.2.tasks.map fun u => (u.id, u.status)) =
      some [(1, .todo), (2, .done), (3, .todo), (4, .todo), (5, .todo)] := by
  decide

/-- C3 amended: completing the last remaining non-`done` sibling action
promotes the parent to `done` provided the parent's status is
`in-progress` (a `todo` parent is left unchanged by the all-done branch);
completing a non-last sibling while the parent is `todo` promotes the
parent only to `in-progress`. -/
theorem C3_amended_sibling_cascade (tr : TaskTracker) (id p : Nat) (t par : Task)
    (hfind : tr.tasks.find? (fun u => u.id == id) = some t)
    (hst : t.status = .inProgress)
    (hpid : t.parentId = some p) (hp0 : p ≠ 0) (hne : p ≠ id)
    (hpar : tr.tasks.find? (fun u => u.id == p) = some par) :
    (par.status = .inProgress →
     (∀ u ∈ tr.tasks, u.parentId = some p → u.id ≠ id → u.status = .done) →
     tr.completeTask id =
       .ok ({ t with status := .done }, (tr.setStatusOf id .done).setStatusOf p .done)) ∧
    (par.status = .todo →
     (∃ u ∈ tr.tasks, u.parentId = some p ∧ u.id ≠ id ∧ u.status ≠ .done) →
     tr.completeTask id =
       .ok ({ t with status := .done }, (tr.setStatusOf id .done).setStatusOf p .inProgress)) := by
  have hparid : par.id = p := find?_id_eq hpar
  have htid : t.id = id := find?_id_eq hfind
  have hids : ∀ u : Task,
      ((if u.id == id then { u with status := TaskStatus.done } else u) : Task).id = u.id := by
    intro u
    by_cases h : u.id == id <;> simp [h]
  have hfind1 : (tr.setStatusOf id .done).tasks.find? (fun u => u.id == p) = some par := by
    unfold TaskTracker.setStatusOf
    rw [find?_map_of_id _ _ _ hids, hpar]
    simp [hparid, hne]
  constructor
  · intro hpstatus hsib
    have hAll : ((tr.setStatusOf id .done).tasks.filter
        (fun u => u.parentId == some p)).all (fun s => s.status == .done) = true := by
      rw [List.all_eq_true]
      intro x hx
      obtain ⟨hx1, hx2⟩ := List.mem_filter.1 hx
      obtain ⟨v, hv, hfv⟩ := List.mem_map.1 hx1
      by_cases hvid : v.id == id
      · subst hfv
        simp [hvid]
      · subst hfv
        have hvne : v.id ≠ id := by simpa using hvid
        simp only [hvid, if_neg, Bool.false_eq_true, ite_false] at hx2 ⊢
        have hvp : v.parentId = some p := by simpa [hvid] using hx2
        simp [hsib v hv hvp hvne]
    have hMem : ({ t with status := TaskStatus.done } : Task) ∈
        (tr.setStatusOf id .done).tasks.filter (fun u => u.parentId == some p) := by
      apply List.mem_filter.2
      constructor
      · apply List.mem_map.2
        exact ⟨t, find?_id_mem hfind, by simp [htid]⟩
      · simp [hpid]
    have hNe : ((tr.setStatusOf id .done).tasks.filter
        (fun u => u.parentId == some p)).isEmpty = false := by
      rcases h : ((tr.setStatusOf id .done).tasks.filter
        (fun u => u.parentId == some p)) with _ | ⟨a, l⟩
      · rw [h] at hMem
        simp at hMem
      · rw [h]
        rfl
    simp only [TaskTracker.completeTask, TaskTracker.transition, hfind]
    rw [if_neg (by simp [hst])]
    simp only [hpid, truthyNat, Option.getD_some]
    rw [if_pos (by simpa using hp0)]
    simp only [hfind1, hpid]
    rw [hNe, hAll]
    simp only [Bool.not_false, Bool.and_self, if_true]
    rw [if_pos hpstatus]
  · intro hpstatus hsib
    obtain ⟨u, hu, hup, huid, hust⟩ := hsib
    have hAll : ((tr.setStatusOf id .done).tasks.filter
        (fun x => x.parentId == some p)).all (fun s => s.status == .done) = false := by
      rw [Bool.eq_false_iff]
      intro hall
      rw [List.all_eq_true] at hall
      have humem : u ∈ (tr.setStatusOf id .done).tasks.filter
          (fun x => x.parentId == some p) := by
        apply List.mem_filter.2
        refine ⟨List.mem_map.2 ⟨u, hu, by simp [show (u.id == id) = false by simpa using huid]⟩, ?_⟩
        simp [hup]
      have := hall u humem
      simp [hust] at this
    simp only [TaskTracker.completeTask, TaskTracker.transition, hfind]
    rw [if_neg (by simp [hst])]
    simp only [hpid, truthyNat, Option.getD_some]
    rw [if_pos (by simpa using hp0)]
    simp only [hfind1, hpid]
    rw [hAll]
    simp only [Bool.and_false, Bool.false_eq_true, if_false]
    rw [if_pos hpstatus]

/-- C3 witness: both branches of the amended cascade at concrete stores. -/
theorem C3_witness :
    (let trA : TaskTracker :=
      { tasks := [{ id := 1, title := "g".data, status := .inProgress },
                  { id := 2, title := "a".data, status := .inProgress, parentId := some 1 }],
        nextId := 3 }
     trA.completeTask 2 =
       .ok ({ id := 2, title := "a".data, status := .done, parentId := some 1 },
            (trA.setStatusOf 2 .done).setStatusOf 1 .done)) ∧
    (let trB : TaskTracker :=
      { tasks := [{ id := 5, title := "g".data, status := .todo },
                  { id := 2, title := "a".data, status := .inProgress, parentId := some 5 },
                  { id := 3, title := "b".data, status := .todo, parentId := some 5 }],
        nextId := 6 }
     trB.completeTask 2 =
       .ok ({ id := 2, title := "a".data, status := .done, parentId := some 5 },
            (trB.setStatusOf 2 .done).setStatusOf 5 .inProgress)) :=
  ⟨(C3_amended_sibling_cascade _ 2 1
      { id := 2, title := "a".data, status := .inProgress, parentId := some 1 }
      { id := 1, title := "g".data, status := .inProgress }
      (by decide) (by decide) (by decide) (by decide) (by decide) (by decide)).1
      (by decide) (by decide),
   (C3_amended_sibling_cascade _ 2 5
      { id := 2, title := "a".data, status := .inProgress, parentId := some 5 }
      { id := 5, title := "g".data, status := .todo }
      (by decide) (by decide) (by decide) (by decide) (by decide) (by decide)).2
      (by decide) ⟨{ id := 3, title := "b".data, status := .todo, parentId := some 5 },
        by decide, by decide, by decide, by decide⟩⟩

/-- C9: a reflection with a positive goalId but no non-empty signals, note
or answers is rejected with the validation error and the stored collection
is untouched; `appendReflection({goalId: 1, signals: ["clear_step"]})`
succeeds, carries the fresh id and timestamp, and is returned by
`listReflections({goalId: 1})` under the default 14-day window. -/
theorem C9_reflection_validation_and_retrieval (input : ReflectionInput) (uuid : Str)
    (now : Int) (store : List Reflection) :
    (0 < input.goalId →
     input.actionId = none →
     (∀ l, input.signals = some l → l = []) →
     (∀ nn, input.note = some nn → strTrim nn = []) →
     (∀ a, input.answers = some a → a = []) →
     appendReflection input uuid now store =
       (.rerr "Reflection must have signals, note, or answers".data, store)) ∧
    (appendReflection { goalId := 1, signals := some ["clear_step".data] } uuid now store =
       (.rok { id := uuid, createdAt := now, goalId := 1,
               signals := some ["clear_step".data] },
        store ++ [{ id := uuid, createdAt := now, goalId := 1,
                    signals := some ["clear_step".data] }]) ∧
     ({ id := uuid, createdAt := now, goalId := 1,
        signals := some ["clear_step".data] } : Reflection) ∈
       listReflections
         (store ++ [{ id := uuid, createdAt := now, goalId := 1,
                      signals := some ["clear_step".data] }])
         { goalId := some 1 } now) := by
  refine ⟨fun hg ha h1 h2 h3 => ?_, ?_, ?_⟩
  · have hS : (match input.signals with
               | some l => !l.isEmpty
               | none => false) = false := by
      rcases hsg : input.signals with _ | l
      · rfl
      · simp [h1 l hsg]
    have hN : (match input.note with
               | some n => !n.isEmpty && !(strTrim n).isEmpty
               | none => false) = false := by
      rcases hn : input.note with _ | nn
      · rfl
      · simp [h2 nn hn]
    have hA : (match input.answers with
               | some l => !l.isEmpty
               | none => false) = false := by
      rcases hans : input.answers with _ | a
      · rfl
      · simp [h3 a hans]
    simp only [appendReflection, ha]
    rw [if_neg (not_le.mpr hg)]
    simp only [hS, hN, hA]
    rfl
  · rfl
  · simp only [listReflections, Option.getD_none, Option.getD_some, msPerDay]
    refine List.mem_filter.2 ⟨List.mem_filter.2 ⟨?_, ?_⟩, ?_⟩
    · exact List.mem_append_right _ (List.mem_singleton.2 rfl)
    · simp only [decide_eq_true_eq]
      omega
    · simp

/-- C9 witness: the two scenarios at concrete inputs (empty store, fixed
uuid and time). -/
theorem C9_witness :
    appendReflection { goalId := 7 } "u".data 1000 [] =
      (.rerr "Reflection must have signals, note, or answers".data, []) ∧
    appendReflection { goalId := 1, signals := some ["clear_step".data] } "u".data 1000 [] =
      (.rok { id := "u".data, createdAt := 1000, goalId := 1,
              signals := some ["clear_step".data] },
       [{ id := "u".data, createdAt := 1000, goalId := 1,
          signals := some ["clear_step".data] }]) ∧
    ({ id := "u".data, createdAt := 1000, goalId := 1,
       signals := some ["clear_step".data] } : Reflection) ∈
      listReflections
        [{ id := "u".data, createdAt := 1000, goalId := 1,
           signals := some ["clear_step".data] }] { goalId := some 1 } 1000 :=
  ⟨(C9_reflection_validation_and_retrieval { goalId := 7 } "u".data 1000 []).1
      (by decide) rfl (fun l h => by cases h) (fun nn h => by cases h) (fun a h => by cases h),
   (C9_reflection_validation_and_retrieval { goalId := 1, signals := some ["clear_step".data] }
      "u".data 1000 []).2.1,
   (C9_reflection_validation_and_retrieval { goalId := 1, signals := some ["clear_step".data] }
      "u".data 1000 []).2.2⟩

/-- C7: the deterministic briefing returns at most 2 focus items; a
start/finish focus action carries the id of an existing child action of
its goal, and a create focus action carries no id. -/
theorem C7_briefing_focus_shape (goals allTasks : List BTask) (userName : Option Str) :
    (generateBriefingDeterministic goals allTasks userName).focus.length ≤ 2 ∧
    ∀ item ∈ (generateBriefingDeterministic goals allTasks userName).focus,
      (item.action.type = .createNewAction → item.action.actionId = none) ∧
      (item.action.type ≠ .createNewAction →
        ∃ t ∈ allTasks, t.parentId = some item.goalId ∧ item.action.actionId = some t.id) := by
  constructor
  · simp only [generateBriefingDeterministic, List.length_map, List.length_take]
    omega
  · intro item hitem
    simp only [generateBriefingDeterministic, List.mem_map] at hitem
    obtain ⟨g, hg, hfg⟩ := hitem
    rcases hip : (allTasks.filter (fun t => t.parentId == some g.id)).find?
        (fun a => a.status == "in-progress".data) with _ | a
    · rcases htd : (allTasks.filter (fun t => t.parentId == some g.id)).find?
          (fun a => a.status == "todo".data) with _ | a
      · rw [hip, htd] at hfg
        subst hfg
        exact ⟨fun _ => rfl, fun h => absurd rfl h⟩

      · rw [hip, htd] at hfg
        subst hfg
        constructor
        · intro h
          simp at h
        · intro _
          refine ⟨a, (List.mem_filter.1 (List.mem_of_find?_eq_some htd)).1, ?_, by simp⟩
          have := (List.mem_filter.1 (List.mem_of_find?_eq_some htd)).2
          simpa using this
    · rw [hip] at hfg
      subst hfg
      constructor
      · intro h
        simp at h
      · intro _
        refine ⟨a, (List.mem_filter.1 (List.mem_of_find?_eq_some hip)).1, ?_, by simp⟩
        have := (List.mem_filter.1 (List.mem_of_find?_eq_some hip)).2
        simpa using this

/-- C7 witness: one in-progress goal with an in-progress child action and
one todo goal with no actions. -/
theorem C7_witness :
    (generateBriefingDeterministic
        [{ id := 1, title := "g1".data, status := "in-progress".data },
         { id := 3, title := "g3".data, status := "todo".data }]
        [{ id := 1, title := "g1".data, status := "in-progress".data },
         { id := 2, title := "a2".data, status := "in-progress".data, parentId := some 1 },
         { id := 3, title := "g3".data, status := "todo".data }] none).focus.length ≤ 2 ∧
    ∀ item ∈ (generateBriefingDeterministic
        [{ id := 1, title := "g1".data, status := "in-progress".data },
         { id := 3, title := "g3".data, status := "todo".data }]
        [{ id := 1, title := "g1".data, status := "in-progress".data },
         { id := 2, title := "a2".data, status := "in-progress".data, parentId := some 1 },
         { id := 3, title := "g3".data, status := "todo".data }] none).focus,
      (item.action.type = .createNewAction → item.action.actionId = none) ∧
      (item.action.type ≠ .createNewAction →
        ∃ t ∈ [{ id := 1, title := "g1".data, status := "in-progress".data },
               { id := 2, title := "a2".data, status := "in-progress".data,
                 parentId := some 1 },
               ({ id := 3, title := "g3".data, status := "todo".data } : BTask)],
          t.parentId = some item.goalId ∧ item.action.actionId = some t.id) :=
  C7_briefing_focus_shape _ _ none

/-! ## Suggestion-engine lemmas -/

theorem keyClash_ne : ∀ (p q a b : Str), keyClash p q = true →
    lowerStr (p ++ a) ≠ lowerStr (q ++ b)
  | pc :: ps, qc :: qs, a, b, h => by
    simp only [keyClash, Bool.or_eq_true, decide_eq_true_eq] at h
    intro heq
    simp only [lowerStr, List.cons_append, List.map_cons, List.cons.injEq] at heq
    rcases h with h | h
    · exact h heq.1
    · exact keyClash_ne ps qs a b h (by simpa [lowerStr] using heq.2)
  | [], q, a, b, h => by simp [keyClash] at h
  | pc :: ps, [], a, b, h => by simp [keyClash] at h

theorem form_append (lit rest : Str) (h : lit ∈ candPrefixes) :
    ∃ q r, lit ++ rest = q ++ r ∧ q ∈ candPrefixes := ⟨lit, rest, rfl, h⟩

theorem form_lit (lit : Str) (h : lit ∈ candPrefixes) :
    ∃ q r, lit = q ++ r ∧ q ∈ candPrefixes := ⟨lit, [], (List.append_nil lit).symm, h⟩

theorem vform_append (lit rest : Str) (h : lit ∈ vPrefixes) :
    ∃ p r, lit ++ rest = p ++ r ∧ p ∈ vPrefixes := ⟨lit, rest, rfl, h⟩

theorem vform_lit (lit : Str) (h : lit ∈ vPrefixes) :
    ∃ p r, lit = p ++ r ∧ p ∈ vPrefixes := ⟨lit, [], (List.append_nil lit).symm, h⟩

/-- Every non-validation candidate prefix disagrees (lowercased, at a
shared position) with every validation-title prefix. -/
theorem allPrefixClash :
    candPrefixes.all (fun q => vPrefixes.all (fun p => keyClash q p)) = true := by
  decide

/-- Shape of every template in every bank: its kind (never `validation`,
`follow-up` or `reuse`) and its title prefix. -/
theorem buildTemplates_shape (d : DecisionInput) (dt : DecisionType) (t : Template)
    (ht : t ∈ buildTemplates d dt) :
    (t.kind = .nextAction ∨ t.kind = .review ∨ t.kind = .split) ∧
    ∃ q r, t.title = q ++ r ∧ q ∈ candPrefixes := by
  cases dt <;>
    simp only [buildTemplates, habitTemplates, studyTemplates, productTemplates,
      vendorTemplates, strategyTemplates, generalTemplates, List.mem_cons,
      List.not_mem_nil, or_false] at ht <;>
    rcases ht with rfl | rfl | rfl | rfl | rfl | rfl <;>
    refine ⟨by simp, ?_⟩ <;>
    dsimp only <;>
    first
      | (rw [List.append_assoc]; exact form_append _ _ (by decide))
      | exact form_append _ _ (by decide)
      | exact form_lit _ (by decide)

/-- The validation suggestion always has kind `validation` and one of the
eleven validation title prefixes. -/
theorem validation_shape (d : DecisionInput) (dt : DecisionType) :
    (buildValidationSuggestion d dt).kind = .validation ∧
    ∃ p r, (buildValidationSuggestion d dt).title = p ++ r ∧ p ∈ vPrefixes := by
  simp only [buildValidationSuggestion]
  repeat' split
  all_goals refine ⟨rfl, ?_⟩
  all_goals dsimp only
  all_goals
    first
      | (rw [List.append_assoc]; exact vform_append _ _ (by decide))
      | exact vform_append _ _ (by decide)
      | exact vform_lit _ (by decide)

theorem pickFillLoop_mem (l : List Template) (cands : List SugT) (filled : List Fills)
    (x : SugT) (hx : x ∈ (pickFillLoop l cands filled).1) :
    x ∈ cands ∨ ∃ t ∈ l, x = tmplToSugT t := by
  induction l generalizing cands filled with
  | nil => exact Or.inl hx
  | cons t rest ih =>
    simp only [pickFillLoop] at hx
    by_cases h2 : 2 ≤ cands.length
    · rw [if_pos h2] at hx
      exact Or.inl hx
    · rw [if_neg h2] at hx
      rcases hf : t.fills with _ | f
      · rw [hf] at hx
        dsimp only at hx
        rcases ih _ _ hx with h | ⟨u, hu, hxu⟩
        · rcases List.mem_append.1 h with h | h
          · exact Or.inl h
          · exact Or.inr ⟨t, List.mem_cons_self t rest, List.mem_singleton.1 h⟩
        · exact Or.inr ⟨u, List.mem_cons_of_mem t hu, hxu⟩
      · rw [hf] at hx
        dsimp only at hx
        by_cases hmem : f ∈ filled
        · rw [if_pos hmem] at hx
          rcases ih _ _ hx with h | ⟨u, hu, hxu⟩
          · exact Or.inl h
          · exact Or.inr ⟨u, List.mem_cons_of_mem t hu, hxu⟩
        · rw [if_neg hmem] at hx
          rcases ih _ _ hx with h | ⟨u, hu, hxu⟩
          · rcases List.mem_append.1 h with h | h
            · exact Or.inl h
            · exact Or.inr ⟨t, List.mem_cons_self t rest, List.mem_singleton.1 h⟩
          · exact Or.inr ⟨u, List.mem_cons_of_mem t hu, hxu⟩

theorem varietyLoop_mem (l : List Template) (cands : List SugT) (filled : List Fills)
    (x : SugT) (hx : x ∈ varietyLoop l cands filled) :
    x ∈ cands ∨ ∃ t ∈ l, x = tmplToSugT t := by
  induction l generalizing cands with
  | nil => exact Or.inl hx
  | cons t rest ih =>
    simp only [varietyLoop] at hx
    by_cases h3 : 3 ≤ cands.length
    · rw [if_pos h3] at hx
      exact Or.inl hx
    · rw [if_neg h3] at hx
      by_cases hdup : cands.any (fun c => c.s.title == t.title)
      · rw [if_pos hdup] at hx
        rcases ih _ hx with h | ⟨u, hu, hxu⟩
        · exact Or.inl h
        · exact Or.inr ⟨u, List.mem_cons_of_mem t hu, hxu⟩
      · rw [if_neg hdup] at hx
        by_cases hfil : (match t.fills with
                         | some f => decide (f ∈ filled)
                         | none => false) = true
        · rw [if_pos hfil] at hx
          rcases ih _ hx with h | ⟨u, hu, hxu⟩
          · exact Or.inl h
          · exact Or.inr ⟨u, List.mem_cons_of_mem t hu, hxu⟩
        · rw [if_neg hfil] at hx
          rcases ih _ hx with h | ⟨u, hu, hxu⟩
          · rcases List.mem_append.1 h with h | h
            · exact Or.inl h
            · exact Or.inr ⟨t, List.mem_cons_self t rest, List.mem_singleton.1 h⟩
          · exact Or.inr ⟨u, List.mem_cons_of_mem t hu, hxu⟩

/-- Everything selected from the template stage is an eligible template. -/
theorem eligibleSorted_mem (d : DecisionInput) (t : Template)
    (ht : t ∈ eligibleSorted d) :
    t ∈ buildTemplates d (classifyDecision d) ∧ eligibleFor (isCompleteD d) t = true := by
  unfold eligibleSorted at ht
  have := (List.mergeSort_perm ((buildTemplates d (classifyDecision d)).filter
    (eligibleFor (isCompleteD d)))
    (fun a b => decide (fieldPriorityOf a.fills ≤ fieldPriorityOf b.fills))).mem_iff.1 ht
  exact List.mem_filter.1 this

theorem step2_mem (d : DecisionInput) (x : SugT) (hx : x ∈ candsThroughStep2 d) :
    (∃ t, t ∈ buildTemplates d (classifyDecision d) ∧
      eligibleFor (isCompleteD d) t = true ∧ x = tmplToSugT t) ∨ x = ambigSug d := by
  simp only [candsThroughStep2] at hx
  have templ : x ∈ varietyLoop (eligibleSorted d) (pickFillLoop (eligibleSorted d) [] []).1
      (pickFillLoop (eligibleSorted d) [] []).2 →
      (∃ t, t ∈ buildTemplates d (classifyDecision d) ∧
        eligibleFor (isCompleteD d) t = true ∧ x = tmplToSugT t) := by
    intro h
    rcases varietyLoop_mem _ _ _ _ h with h | ⟨t, htl, hxt⟩
    · rcases pickFillLoop_mem _ _ _ _ h with h | ⟨t, htl, hxt⟩
      · simp at h
      · obtain ⟨h1, h2⟩ := eligibleSorted_mem d t htl
        exact ⟨t, h1, h2, hxt⟩
    · obtain ⟨h1, h2⟩ := eligibleSorted_mem d t htl
      exact ⟨t, h1, h2, hxt⟩
  by_cases hcond : (hasAmbiguousVerb d.title && !truthyStr d.metric) = true
  · rw [if_pos hcond] at hx
    rcases List.mem_append.1 hx with h | h
    · exact Or.inl (templ h)
    · exact Or.inr (List.mem_singleton.1 h)
  · rw [if_neg hcond] at hx
    exact Or.inl (templ hx)

theorem step3_mem (d : DecisionInput) (x : SugT) (hx : x ∈ candsThroughStep3 d) :
    x ∈ candsThroughStep2 d ∨ x = actionOutcomeSug d ∨ x = actionMetricSug := by
  simp only [candsThroughStep3] at hx
  by_cases ha : isActionPrefixed d.title = true
  · rw [if_pos ha] at hx
    by_cases ho : (!truthyStr d.outcome) = true
    · rw [if_pos ho] at hx
      by_cases hm : (!truthyStr d.metric) = true
      · rw [if_pos hm] at hx
        rcases List.mem_append.1 hx with h | h
        · rcases List.mem_append.1 h with h | h
          · exact Or.inl (List.mem_filter.1 h).1
          · exact Or.inr (Or.inl (List.mem_singleton.1 h))
        · exact Or.inr (Or.inr (List.mem_singleton.1 h))
      · rw [if_neg hm] at hx
        rcases List.mem_append.1 hx with h | h
        · exact Or.inl (List.mem_filter.1 h).1
        · exact Or.inr (Or.inl (List.mem_singleton.1 h))
    · rw [if_neg ho] at hx
      by_cases hm : (!truthyStr d.metric) = true
      · rw [if_pos hm] at hx
        rcases List.mem_append.1 hx with h | h
        · exact Or.inl (List.mem_filter.1 h).1
        · exact Or.inr (Or.inr (List.mem_singleton.1 h))
      · rw [if_neg hm] at hx
        exact Or.inl (List.mem_filter.1 hx).1
  · rw [if_neg ha] at hx
    exact Or.inl hx

theorem step4_mem (d : DecisionInput) (os : List DecisionInput) (x : SugT)
    (hx : x ∈ candsThroughStep4 d os) :
    x ∈ candsThroughStep3 d ∨
      ∃ bm, x = reuseOutcomeSug bm ∨ x = reuseMetricSug bm ∨ x = reuseHorizonSug bm := by
  simp only [candsThroughStep4] at hx
  rcases hbm : bestMatchOf d os with ⟨obm, score⟩
  rw [hbm] at hx
  rcases obm with _ | bm
  · exact Or.inl hx
  · dsimp only at hx
    by_cases hs : (1 : ℚ)/4 ≤ score
    · rw [if_pos hs] at hx
      by_cases h1 : (!truthyStr d.outcome && truthyStr bm.outcome) = true
      · rw [if_pos h1] at hx
        rcases List.mem_append.1 hx with h | h
        · exact Or.inl h
        · exact Or.inr ⟨bm, Or.inl (List.mem_singleton.1 h)⟩
      · rw [if_neg h1] at hx
        by_cases h2 : (!truthyStr d.metric && truthyStr bm.metric) = true
        · rw [if_pos h2] at hx
          rcases List.mem_append.1 hx with h | h
          · exact Or.inl h
          · exact Or.inr ⟨bm, Or.inr (Or.inl (List.mem_singleton.1 h))⟩
        · rw [if_neg h2] at hx
          by_cases h3 : (!truthyStr d.horizon && truthyStr bm.horizon) = true
          · rw [if_pos h3] at hx
            rcases List.mem_append.1 hx with h | h
            · exact Or.inl h
            · exact Or.inr ⟨bm, Or.inr (Or.inr (List.mem_singleton.1 h))⟩
          · rw [if_neg h3] at hx
            exact Or.inl hx
    · rw [if_neg hs] at hx
      exact Or.inl hx

/-- Below the 0.25 similarity threshold step 4 adds nothing. -/
theorem step4_eq_of_lowscore (d : DecisionInput) (os : List DecisionInput)
    (h : (bestMatchOf d os).2 < (1 : ℚ)/4) :
    candsThroughStep4 d os = candsThroughStep3 d := by
  simp only [candsThroughStep4]
  rcases hbm : bestMatchOf d os with ⟨obm, score⟩
  rw [hbm] at h
  rcases obm with _ | bm
  · rfl
  · dsimp only
    rw [if_neg (not_le.mpr h)]

theorem step5_mem (d : DecisionInput) (os : List DecisionInput) (x : SugT)
    (hx : x ∈ candsThroughStep5 d os) :
    x ∈ candsThroughStep4 d os ∨ x ∈ unblockOptions := by
  simp only [candsThroughStep5] at hx
  by_cases hc : (d.status == some "in-progress".data && isCompleteD d) = true
  · rw [if_pos hc] at hx
    rcases hf : unblockOptions.find?
        (fun opt => !(candsThroughStep4 d os).any fun c => c.s.title == opt.s.title)
      with _ | opt
    · rw [hf] at hx
      exact Or.inl hx
    · rw [hf] at hx
      rcases List.mem_append.1 hx with h | h
      · exact Or.inl h
      · exact Or.inr (List.mem_singleton.1 h ▸ List.mem_of_find?_eq_some hf)
  · rw [if_neg hc] at hx
    exact Or.inl hx

theorem step6_mem (d : DecisionInput) (os : List DecisionInput) (x : SugT)
    (hx : x ∈ candsThroughStep6 d os) :
    x ∈ candsThroughStep5 d os ∨
      ∃ k, x = trackerTodoSug k ∨ x = trackerWipSug k ∨ x = trackerDoneSug k := by
  simp only [candsThroughStep6] at hx
  by_cases hne : (!os.isEmpty) = true
  · rw [if_pos hne] at hx
    set todoN := (os.filter (fun y => y.status == some "todo".data)).length with htodo
    set ipN := (os.filter (fun y => y.status == some "in-progress".data)).length with hip
    set doneN := (os.filter (fun y => y.status == some "done".data)).length with hdone
    by_cases h1 : (4 ≤ todoN && ipN == 0) = true
    all_goals by_cases h2 : 2 ≤ ipN
    all_goals by_cases h3 : 5 ≤ doneN
    all_goals simp only [h1, h2, h3, if_pos, if_neg, if_true, if_false,
      Bool.false_eq_true] at hx
    all_goals
      repeat
        rcases List.mem_append.1 hx with hx | hx
    all_goals first
      | exact Or.inl hx
      | exact Or.inr ⟨todoN, Or.inl (List.mem_singleton.1 hx)⟩
      | exact Or.inr ⟨ipN, Or.inr (Or.inl (List.mem_singleton.1 hx))⟩
      | exact Or.inr ⟨doneN, Or.inr (Or.inr (List.mem_singleton.1 hx))⟩
  · rw [if_neg hne] at hx
    exact Or.inl hx

theorem pass1_spec (cands : List SugT) : ∀ (acc : List SugT) (seen : List Str),
    ∃ extra, pass1 cands acc seen = (acc ++ extra, seen ++ extra.map sugKey) ∧
      (∀ x ∈ extra, x ∈ cands ∧ x.s.kind ≠ .validation) ∧
      ((acc ++ extra).length ≤ 2 ∨ extra = []) := by
  induction cands with
  | nil =>
    intro acc seen
    exact ⟨[], by simp [pass1], by simp, Or.inr rfl⟩
  | cons x rest ih =>
    intro acc seen
    simp only [pass1]
    by_cases h2 : 2 ≤ acc.length
    · rw [if_pos h2]
      exact ⟨[], by simp, by simp, Or.inr rfl⟩
    · rw [if_neg h2]
      by_cases hv : (x.s.kind == SuggestionKind.validation) = true
      · rw [if_pos hv]
        obtain ⟨extra, he, hmem, hlen⟩ := ih acc seen
        exact ⟨extra, he, fun y hy => ⟨List.mem_cons_of_mem x (hmem y hy).1,
          (hmem y hy).2⟩, hlen⟩
      · rw [if_neg hv]
        by_cases hs : sugKey x ∈ seen
        · rw [if_pos hs]
          obtain ⟨extra, he, hmem, hlen⟩ := ih acc seen
          exact ⟨extra, he, fun y hy => ⟨List.mem_cons_of_mem x (hmem y hy).1,
            (hmem y hy).2⟩, hlen⟩
        · rw [if_neg hs]
          obtain ⟨extra, he, hmem, hlen⟩ := ih (acc ++ [x]) (seen ++ [sugKey x])
          refine ⟨x :: extra, ?_, ?_, ?_⟩
          · rw [he]
            simp
          · intro y hy
            rcases List.mem_cons.1 hy with heq | hy
            · subst heq
              exact ⟨List.mem_cons_self _ rest, by simpa using hv⟩
            · exact ⟨List.mem_cons_of_mem x (hmem y hy).1, (hmem y hy).2⟩
          · left
            rcases hlen with h | h
            · simpa using h
            · subst h
              simp only [List.append_nil, List.length_append, List.length_cons,
                List.length_nil]
              omega

theorem pass2_append (l1 : List SugT) (v : SugT) (acc : List SugT) (seen : List Str)
    (hl : ∀ x ∈ l1, x.s.kind ≠ .validation) (hv : v.s.kind = .validation)
    (hs : sugKey v ∉ seen) :
    pass2 (l1 ++ [v]) acc seen = (acc ++ [v], seen ++ [sugKey v]) := by
  induction l1 with
  | nil =>
    simp only [List.nil_append, pass2]
    rw [if_neg (by simp [hv]), if_neg hs]
  | cons x rest ih =>
    simp only [List.cons_append, pass2]
    rw [if_pos (by simpa using hl x (List.mem_cons_self x rest))]
    exact ih (fun y hy => hl y (List.mem_cons_of_mem x hy))

theorem pass2_mem (cands : List SugT) : ∀ (acc : List SugT) (seen : List Str) (x : SugT),
    x ∈ (pass2 cands acc seen).1 → x ∈ acc ∨ x ∈ cands := by
  induction cands with
  | nil =>
    intro acc seen x hx
    exact Or.inl hx
  | cons y rest ih =>
    intro acc seen x hx
    simp only [pass2] at hx
    by_cases h1 : y.s.kind ≠ SuggestionKind.validation
    · rw [if_pos h1] at hx
      rcases ih _ _ _ hx with h | h
      · exact Or.inl h
      · exact Or.inr (List.mem_cons_of_mem y h)
    · rw [if_neg h1] at hx
      by_cases h2 : sugKey y ∈ seen
      · rw [if_pos h2] at hx
        rcases ih _ _ _ hx with h | h
        · exact Or.inl h
        · exact Or.inr (List.mem_cons_of_mem y h)
      · rw [if_neg h2] at hx
        simp only at hx
        rcases List.mem_append.1 hx with h | h
        · exact Or.inl h
        · exact Or.inr (List.mem_singleton.1 h ▸ List.mem_cons_self y rest)

theorem pass3_spec (cands : List SugT) : ∀ (acc : List SugT) (seen : List Str),
    pass3 cands acc seen = acc ∨
      ∃ x, x ∈ cands ∧ (x.s.kind = .followUp ∨ x.s.kind = .reuse) ∧
        pass3 cands acc seen = acc ++ [x] := by
  induction cands with
  | nil =>
    intro acc seen
    exact Or.inl rfl
  | cons y rest ih =>
    intro acc seen
    simp only [pass3]
    by_cases h4 : 4 ≤ acc.length
    · rw [if_pos h4]
      exact Or.inl rfl
    · rw [if_neg h4]
      by_cases hs : sugKey y ∈ seen
      · rw [if_pos hs]
        rcases ih acc seen with h | ⟨x, hx1, hx2, hx3⟩
        · exact Or.inl h
        · exact Or.inr ⟨x, List.mem_cons_of_mem y hx1, hx2, hx3⟩
      · rw [if_neg hs]
        by_cases hk : (y.s.kind == SuggestionKind.followUp || y.s.kind == SuggestionKind.reuse) = true
        · rw [if_pos hk]
          exact Or.inr ⟨y, List.mem_cons_self y rest, by simpa using hk, rfl⟩
        · rw [if_neg hk]
          rcases ih acc seen with h | ⟨x, hx1, hx2, hx3⟩
          · exact Or.inl h
          · exact Or.inr ⟨x, List.mem_cons_of_mem y hx1, hx2, hx3⟩

/-- Master shape of every pre-validation candidate: never of kind
`validation`, title prefixed by a `candPrefixes` entry, and provenance:
template-tagged candidates come from eligible templates only. -/
theorem step6_shape (d : DecisionInput) (os : List DecisionInput) (x : SugT)
    (hx : x ∈ candsThroughStep6 d os) :
    x.s.kind ≠ .validation ∧
    (∃ q r, x.s.title = q ++ r ∧ q ∈ candPrefixes) ∧
    (∀ w, x.src = .fromTemplate w →
      ∃ t, t ∈ buildTemplates d (classifyDecision d) ∧
        eligibleFor (isCompleteD d) t = true ∧ x = tmplToSugT t) := by
  rcases step6_mem d os x hx with hx5 | ⟨k, hk | hk | hk⟩
  · rcases step5_mem d os x hx5 with hx4 | hub
    · rcases step4_mem d os x hx4 with hx3 | ⟨bm, hk | hk | hk⟩
      · rcases step3_mem d x hx3 with hx2 | hk | hk
        · rcases step2_mem d x hx2 with ⟨t, ht1, ht2, rfl⟩ | hk
          · obtain ⟨hkind, q, r, hqr, hq⟩ := buildTemplates_shape d _ t ht1
            refine ⟨?_, ⟨q, r, hqr, hq⟩, fun w _ => ⟨t, ht1, ht2, rfl⟩⟩
            rcases hkind with h | h | h <;> simp [tmplToSugT, tmplToSug, h]
          · subst hk
            refine ⟨by simp [ambigSug], ?_, fun w hw => by simp [ambigSug] at hw⟩
            simp only [ambigSug]
            try dsimp only
            rw [List.append_assoc]
            exact form_append _ _ (by decide)
        · subst hk
          refine ⟨by simp [actionOutcomeSug], ?_, fun w hw => by simp [actionOutcomeSug] at hw⟩
          simp only [actionOutcomeSug]
          exact form_lit _ (by decide)
        · subst hk
          refine ⟨by simp [actionMetricSug], ?_, fun w hw => by simp [actionMetricSug] at hw⟩
          simp only [actionMetricSug]
          exact form_lit _ (by decide)
      · subst hk
        refine ⟨by simp [reuseOutcomeSug], ?_, fun w hw => by simp [reuseOutcomeSug] at hw⟩
        simp only [reuseOutcomeSug]
        try dsimp only
        rw [List.append_assoc]
        exact form_append _ _ (by decide)
      · subst hk
        refine ⟨by simp [reuseMetricSug], ?_, fun w hw => by simp [reuseMetricSug] at hw⟩
        simp only [reuseMetricSug]
        try dsimp only
        rw [List.append_assoc]
        exact form_append _ _ (by decide)
      · subst hk
        refine ⟨by simp [reuseHorizonSug], ?_, fun w hw => by simp [reuseHorizonSug] at hw⟩
        simp only [reuseHorizonSug]
        try dsimp only
        rw [List.append_assoc]
        exact form_append _ _ (by decide)
    · simp only [unblockOptions, List.mem_cons, List.not_mem_nil, or_false] at hub
      rcases hub with rfl | rfl | rfl <;>
        exact ⟨by simp, form_lit _ (by decide), fun w hw => by simp at hw⟩
  · subst hk
    refine ⟨by simp [trackerTodoSug], ?_, fun w hw => by simp [trackerTodoSug] at hw⟩
    simp only [trackerTodoSug]
    exact form_lit _ (by decide)
  · subst hk
    refine ⟨by simp [trackerWipSug], ?_, fun w hw => by simp [trackerWipSug] at hw⟩
    simp only [trackerWipSug]
    exact form_lit _ (by decide)
  · subst hk
    refine ⟨by simp [trackerDoneSug], ?_, fun w hw => by simp [trackerDoneSug] at hw⟩
    simp only [trackerDoneSug]
    exact form_lit _ (by decide)

/-- Everything the selection passes return is a candidate. -/
theorem genT_mem (d : DecisionInput) (os : List DecisionInput) (x : SugT)
    (hx : x ∈ generateSuggestionsT d os) : x ∈ allCandidates d os := by
  simp only [generateSuggestionsT] at hx
  have h3 := pass3_spec (allCandidates d os)
    (pass2 (allCandidates d os) (pass1 (allCandidates d os) [] []).1
      (pass1 (allCandidates d os) [] []).2).1
    (pass2 (allCandidates d os) (pass1 (allCandidates d os) [] []).1
      (pass1 (allCandidates d os) [] []).2).2
  have hx2 : x ∈ (pass2 (allCandidates d os) (pass1 (allCandidates d os) [] []).1
      (pass1 (allCandidates d os) [] []).2).1 ∨ x ∈ allCandidates d os := by
    rcases h3 with h | ⟨y, hy1, _, h⟩
    · rw [h] at hx
      exact Or.inl hx
    · rw [h] at hx
      rcases List.mem_append.1 hx with hxx | hxx
      · exact Or.inl hxx
      · exact Or.inr (List.mem_singleton.1 hxx ▸ hy1)
  rcases hx2 with hx2 | hdone
  · rcases pass2_mem _ _ _ _ hx2 with hx1 | hdone
    · obtain ⟨extra, he, hmem, _⟩ := pass1_spec (allCandidates d os) [] []
      rw [he] at hx1
      simp only [List.nil_append] at hx1
      exact (hmem x hx1).1
    · exact hdone
  · exact hdone

/-- C6: when outcome, metric and horizon are all set, no returned
suggestion is built from a `when: "missing"` template; when at least one
is unset, none is built from a `when: "complete"` template (provenance is
tracked by the `src` tag, erased by `generateSuggestions`). -/
theorem C6_template_eligibility (d : DecisionInput) (os : List DecisionInput) :
    (isCompleteD d = true →
      ∀ x ∈ generateSuggestionsT d os, ∀ w, x.src = .fromTemplate w → w ≠ .missing) ∧
    (isCompleteD d = false →
      ∀ x ∈ generateSuggestionsT d os, ∀ w, x.src = .fromTemplate w → w ≠ .complete) := by
  have key : ∀ x ∈ generateSuggestionsT d os, ∀ w, x.src = .fromTemplate w →
      ∃ t : Template, eligibleFor (isCompleteD d) t = true ∧ t.when = w := by
    intro x hx w hw
    rcases List.mem_append.1 (genT_mem d os x hx) with hL | hv
    · obtain ⟨t, _, ht2, hxt⟩ := (step6_shape d os x hL).2.2 w hw
      refine ⟨t, ht2, ?_⟩
      rw [hxt] at hw
      simp only [tmplToSugT] at hw
      exact SugSrc.fromTemplate.inj hw
    · rw [List.mem_singleton.1 hv] at hw
      simp at hw
  constructor
  · intro hc x hx w hw
    obtain ⟨t, ht2, hweq⟩ := key x hx w hw
    intro hmiss
    rw [hmiss] at hweq
    simp [eligibleFor, hweq, hc] at ht2
  · intro hc x hx w hw
    obtain ⟨t, ht2, hweq⟩ := key x hx w hw
    intro hcomp
    rw [hcomp] at hweq
    simp [eligibleFor, hweq, hc] at ht2

/-- C6 witness: a fully-specified decision (both implications exercised at
a complete and an incomplete input). -/
theorem C6_witness :
    isCompleteD { id := 1, title := "plan".data, outcome := some "o".data,
                  metric := some "m".data, horizon := some "h".data } = true ∧
    (∀ x ∈ generateSuggestionsT { id := 1, title := "plan".data, outcome := some "o".data,
                                  metric := some "m".data, horizon := some "h".data } [],
      ∀ w, x.src = .fromTemplate w → w ≠ .missing) ∧
    isCompleteD { id := 1, title := "plan".data } = false ∧
    (∀ x ∈ generateSuggestionsT { id := 1, title := "plan".data } [],
      ∀ w, x.src = .fromTemplate w → w ≠ .complete) :=
  ⟨rfl,
   (C6_template_eligibility { id := 1, title := "plan".data, outcome := some "o".data,
                              metric := some "m".data, horizon := some "h".data } []).1 rfl,
   rfl,
   (C6_template_eligibility { id := 1, title := "plan".data } []).2 rfl⟩

/-- Under the 0.25 threshold no candidate at all carries a follow-up or
reuse kind. -/
theorem step6_no_reuse_kinds (d : DecisionInput) (os : List DecisionInput)
    (hsc : (bestMatchOf d os).2 < (1 : ℚ)/4) :
    ∀ x ∈ candsThroughStep6 d os, x.s.kind ≠ .followUp ∧ x.s.kind ≠ .reuse := by
  intro x hx
  rcases step6_mem d os x hx with hx5 | ⟨k, hk | hk | hk⟩
  · rcases step5_mem d os x hx5 with hx4 | hub
    · rw [step4_eq_of_lowscore d os hsc] at hx4
      rcases step3_mem d x hx4 with hx2 | hk | hk
      · rcases step2_mem d x hx2 with ⟨t, ht1, _, rfl⟩ | hk
        · obtain ⟨hkind, -⟩ := buildTemplates_shape d _ t ht1
          rcases hkind with h | h | h <;> simp [tmplToSugT, tmplToSug, h]
        · subst hk
          simp [ambigSug]
      · subst hk
        simp [actionOutcomeSug]
      · subst hk
        simp [actionMetricSug]
    · simp only [unblockOptions, List.mem_cons, List.not_mem_nil, or_false] at hub
      rcases hub with rfl | rfl | rfl <;> simp
  · subst hk
    simp [trackerTodoSug]
  · subst hk
    simp [trackerWipSug]
  · subst hk
    simp [trackerDoneSug]

/-- C5 counterexample: two identical titles with no token longer than 2
characters ("go") have Jaccard similarity 0, not 1. -/
theorem C5_counterexample_identical_short_titles :
    tokens "go".data = [] ∧
    jaccard (tokens "go".data) (tokens "go".data) = 0 ∧
    jaccard (tokens "go".data) (tokens "go".data) ≠ 1 := by
  refine ⟨rfl, rfl, ?_⟩
  intro h
  rw [show jaccard (tokens "go".data) (tokens "go".data) = 0 from rfl] at h
  exact absurd h (by norm_num)

/-- C5 amended: the token-set Jaccard similarity is 1 for two identical
titles with a non-empty token set (0 for identical token-free titles, as
the counterexample shows), 0 for titles sharing no token, and the step-4
reuse suggestion (the only source of `follow-up`/`reuse` kinds) is never
emitted when the best score over the other decisions is below 0.25. -/
theorem C5_jaccard_and_reuse_threshold (s1 s2 : Str) (d : DecisionInput)
    (os : List DecisionInput) :
    (tokens s1 ≠ [] → jaccard (tokens s1) (tokens s1) = 1) ∧
    ((∀ x ∈ tokens s1, x ∉ tokens s2) → jaccard (tokens s1) (tokens s2) = 0) ∧
    ((bestMatchOf d os).2 < (1 : ℚ)/4 →
      ∀ s ∈ generateSuggestions d os, s.kind ≠ .followUp ∧ s.kind ≠ .reuse) := by
  refine ⟨fun hne => ?_, fun hdisj => ?_, fun hsc s hs => ?_⟩
  · have hlen : (tokens s1).length ≠ 0 := fun h => hne (List.length_eq_zero.1 h)
    simp only [jaccard]
    rw [if_neg (by simp [hlen])]
    have hfil : (tokens s1).filter (fun t => decide (t ∈ tokens s1)) = tokens s1 :=
      List.filter_eq_self.mpr (fun a ha => by simpa using ha)
    rw [hfil]
    have hcast : ((tokens s1).length : ℚ) ≠ 0 := Nat.cast_ne_zero.mpr hlen
    have hden : ((tokens s1).length : ℚ) + (tokens s1).length - (tokens s1).length =
        ((tokens s1).length : ℚ) := by ring
    rw [hden, div_self hcast]
  · simp only [jaccard]
    by_cases hg : (tokens s1).length = 0 ∧ (tokens s2).length = 0
    · rw [if_pos hg]
    · rw [if_neg hg]
      have hfil : (tokens s1).filter (fun t => decide (t ∈ tokens s2)) = [] :=
        List.filter_eq_nil_iff.mpr (fun a ha => by simpa using hdisj a ha)
      rw [hfil]
      simp
  · obtain ⟨x, hxmem, rfl⟩ := List.mem_map.1 hs
    rcases List.mem_append.1 (genT_mem d os x hxmem) with hL | hv
    · exact step6_no_reuse_kinds d os hsc x hL
    · rw [List.mem_singleton.1 hv]
      have hk := (validation_shape d (classifyDecision d)).1
      constructor <;> simp [hk]

/-- C5 witness: identical titles with tokens score 1; disjoint titles
score 0; with no other decisions the best score 0 is below the threshold
and no reuse suggestion appears. -/
theorem C5_witness :
    tokens "ship the mvp app".data ≠ [] ∧
    jaccard (tokens "ship the mvp app".data) (tokens "ship the mvp app".data) = 1 ∧
    (∀ x ∈ tokens "ship the mvp app".data, x ∉ tokens "review hiring plan".data) ∧
    jaccard (tokens "ship the mvp app".data) (tokens "review hiring plan".data) = 0 ∧
    (bestMatchOf { id := 1, title := "plan".data } []).2 < (1 : ℚ)/4 ∧
    (∀ s ∈ generateSuggestions { id := 1, title := "plan".data } [],
      s.kind ≠ .followUp ∧ s.kind ≠ .reuse) :=
  ⟨by decide,
   (C5_jaccard_and_reuse_threshold "ship the mvp app".data "review hiring plan".data
      { id := 1, title := "plan".data } []).1 (by decide),
   by decide,
   (C5_jaccard_and_reuse_threshold "ship the mvp app".data "review hiring plan".data
      { id := 1, title := "plan".data } []).2.1 (by decide),
   by norm_num [show (bestMatchOf { id := 1, title := "plan".data } []).2 = 0 from rfl],
   (C5_jaccard_and_reuse_threshold "ship the mvp app".data "review hiring plan".data
      { id := 1, title := "plan".data } []).2.2
      (by norm_num [show (bestMatchOf { id := 1, title := "plan".data } []).2 = 0 from rfl])⟩

/-- C2: the deterministic `generateSuggestions` always returns between 1
and 4 suggestions, exactly one of which has kind `validation`: the first
selection pass takes at most 2 non-validation candidates, the guaranteed
validation slot always fires (no candidate title collides, after
lowercasing, with any validation title), and the optional 4th slot only
admits follow-up/reuse kinds. -/
theorem C2_suggestion_count_and_validation (d : DecisionInput)
    (os : List DecisionInput) :
    1 ≤ (generateSuggestions d os).length ∧
    (generateSuggestions d os).length ≤ 4 ∧
    ((generateSuggestions d os).filter (fun s => s.kind == .validation)).length = 1 := by
  have hcands : allCandidates d os = candsThroughStep6 d os ++
      [⟨buildValidationSuggestion d (classifyDecision d), .validationStep⟩] := rfl
  set L := candsThroughStep6 d os with hLdef
  set v : SugT := ⟨buildValidationSuggestion d (classifyDecision d), .validationStep⟩ with hvdef
  have hvkind : v.s.kind = .validation := (validation_shape d (classifyDecision d)).1
  have hLkind : ∀ x ∈ L, x.s.kind ≠ .validation := fun x hx => (step6_shape d os x hx).1
  have hLkey : ∀ x ∈ L, sugKey x ≠ sugKey v := by
    intro x hx
    obtain ⟨q, r, hqr, hq⟩ := (step6_shape d os x hx).2.1
    obtain ⟨p, s2, hps, hp⟩ := (validation_shape d (classifyDecision d)).2
    show lowerStr x.s.title ≠ lowerStr v.s.title
    rw [hqr, show v.s.title = (buildValidationSuggestion d (classifyDecision d)).title from rfl,
      hps]
    exact keyClash_ne _ _ _ _
      (List.all_eq_true.1 (List.all_eq_true.1 allPrefixClash q hq) p hp)
  obtain ⟨extra, hp1, hp1mem, hp1len⟩ := pass1_spec (allCandidates d os) [] []
  have hextraL : ∀ x ∈ extra, x ∈ L := by
    intro x hx
    rcases List.mem_append.1 (hcands ▸ (hp1mem x hx).1) with h | h
    · exact h
    · exact absurd (List.mem_singleton.1 h ▸ hvkind) (hp1mem x hx).2
  have hextralen : extra.length ≤ 2 := by
    rcases hp1len with h | h
    · simpa using h
    · simp [h]
  have hvkey : sugKey v ∉ List.map sugKey extra := by
    intro hmem
    obtain ⟨x, hx, hxk⟩ := List.mem_map.1 hmem
    exact hLkey x (hextraL x hx) hxk
  have hp2 : pass2 (allCandidates d os) (pass1 (allCandidates d os) [] []).1
      (pass1 (allCandidates d os) [] []).2 =
      (([] ++ extra) ++ [v], ([] ++ List.map sugKey extra) ++ [sugKey v]) := by
    rw [hp1]
    rw [hcands]
    exact pass2_append L v _ _ hLkind hvkind (by simpa using hvkey)
  have hgen : generateSuggestionsT d os = pass3 (allCandidates d os)
      ((([] : List SugT) ++ extra) ++ [v])
      ((([] : List Str) ++ List.map sugKey extra) ++ [sugKey v]) := by
    simp only [generateSuggestionsT]
    rw [hp2]
  rcases pass3_spec (allCandidates d os) ((([] : List SugT) ++ extra) ++ [v])
      ((([] : List Str) ++ List.map sugKey extra) ++ [sugKey v]) with
    hfin | ⟨y, hy1, hy2, hfin⟩
  · rw [hfin] at hgen
    have hlist : generateSuggestions d os = (extra ++ [v]).map (·.s) := by
      simp only [generateSuggestions, hgen]
      simp
    rw [hlist]
    refine ⟨by simp, by simp [List.length_append]; omega, ?_⟩
    rw [List.map_append, List.filter_append]
    have h1 : (extra.map (·.s)).filter (fun s => s.kind == .validation) = [] := by
      rw [List.filter_eq_nil_iff]
      intro a ha
      obtain ⟨x, hx, rfl⟩ := List.mem_map.1 ha
      simpa using hLkind x (hextraL x hx)
    rw [h1]
    have hbv : (buildValidationSuggestion d (classifyDecision d)).kind = .validation :=
      (validation_shape d (classifyDecision d)).1
    simp [hbv]
  · rw [hfin] at hgen
    have hykind : y.s.kind ≠ .validation := by
      rcases hy2 with h | h <;> simp [h]
    have hlist : generateSuggestions d os = (extra ++ [v] ++ [y]).map (·.s) := by
      simp only [generateSuggestions, hgen]
      simp
    rw [hlist]
    refine ⟨by simp, by simp [List.length_append]; omega, ?_⟩
    rw [List.map_append, List.filter_append, List.map_append, List.filter_append]
    have h1 : (extra.map (·.s)).filter (fun s => s.kind == .validation) = [] := by
      rw [List.filter_eq_nil_iff]
      intro a ha
      obtain ⟨x, hx, rfl⟩ := List.mem_map.1 ha
      simpa using hLkind x (hextraL x hx)
    rw [h1]
    have hbv : (buildValidationSuggestion d (classifyDecision d)).kind = .validation :=
      (validation_shape d (classifyDecision d)).1
    simp [hbv, hykind]

end DecisionTracker
